import Mathlib

/-!
Verification development for the ticktick-mcp repository (a Python MCP server
exposing the TickTick task service).  The Python sources under
`src/ticktick_mcp/` are shallowly embedded below: JSON values become the
inductive `Val`, Python dicts become association lists (`Rec`) with Python's
insertion-order update semantics, HTTP calls become explicit oracle
parameters (`Except`/`Option` results), and `sys.exit(1)` becomes an
`Except` error.  Each embedded definition names the Python function it
mirrors.
-/

/-- JSON-like values passed through the TickTick APIs (Python objects produced
by `json.loads` / sent via `json=`). -/
inductive Val where
  | vNull : Val
  | vBool : Bool → Val
  | vInt : Int → Val
  | vStr : String → Val
  | vList : List Val → Val
  | vObj : List (String × Val) → Val

open Val

/-- A Python `dict[str, ...]` as an insertion-ordered association list with
unique keys (the invariant Python maintains). -/
abbrev Rec := List (String × Val)

/-- `d.get(k)` / `d[k]` lookup on a Python dict. -/
def rget (r : Rec) (k : String) : Option Val :=
  match r with
  | [] => none
  | (k', v) :: rest => if k' = k then some v else rget rest k

/-- `d[k] = v` on a Python dict: replaces the value in place if the key is
present (keeping its position), otherwise appends the new key at the end. -/
def rset (r : Rec) (k : String) (v : Val) : Rec :=
  match r with
  | [] => [(k, v)]
  | (k', v') :: rest => if k' = k then (k, v) :: rest else (k', v') :: rset rest k v

/-- Python truthiness of a JSON value (`bool(x)`): `None`, `False`, `0`, `""`,
`[]` and `{}` are falsy. -/
def valTruthy : Val → Bool
  | vNull => false
  | vBool b => b
  | vInt n => n != 0
  | vStr s => s != ""
  | vList l => !l.isEmpty
  | vObj r => !r.isEmpty

/-- Python truthiness of an `Optional[str]` (`if not x:` is the negation). -/
def strTruthy : Option String → Bool
  | none => false
  | some s => s != ""

/-! ## Official API client: `ticktick_client.py` -/

/-- `TickTickAPIError(status_code, message, response_body)` raised by
`TickTickClient._request` on any non-2xx response. -/
structure TickTickAPIError where
  statusCode : Int
  message : String

/-- `TickTickClient.inbox_id` (property): `f"inbox{self.user_id}"` when
`self.user_id` is truthy, else `None`. -/
def inbox_id (user_id : Option String) : Option String :=
  match user_id with
  | none => none
  | some u => if u = "" then none else some ("inbox" ++ u)

/-- The `if x is not None: body[k] = x` pattern used throughout the official
client's body construction. -/
def setOpt (body : Rec) (k : String) (o : Option Val) : Rec :=
  match o with
  | some v => rset body k v
  | none => body

/-- The `if x: body[k] = x` pattern (Python truthiness on an optional
string), used by `create_project`/`update_project`. -/
def setStrTruthy (body : Rec) (k : String) (o : Option String) : Rec :=
  if strTruthy o then rset body k (vStr (o.getD "")) else body

/-- `TickTickClient.update_task` request body: starts from the mandatory
`id`/`projectId` pair and adds one key per optional argument that `is not
None`, in source order. -/
def update_task_body (task_id project_id : String)
    (title content desc : Option String) (is_all_day : Option Bool)
    (start_date due_date time_zone : Option String)
    (reminders : Option (List String)) (repeat_flag : Option String)
    (priority sort_order : Option Int) (items : Option (List Rec))
    (tags : Option (List String)) : Rec :=
  let body : Rec := [("id", vStr task_id), ("projectId", vStr project_id)]
  let body := setOpt body "title" (title.map vStr)
  let body := setOpt body "content" (content.map vStr)
  let body := setOpt body "desc" (desc.map vStr)
  let body := setOpt body "isAllDay" (is_all_day.map vBool)
  let body := setOpt body "startDate" (start_date.map vStr)
  let body := setOpt body "dueDate" (due_date.map vStr)
  let body := setOpt body "timeZone" (time_zone.map vStr)
  let body := setOpt body "reminders" (reminders.map (fun v => vList (v.map vStr)))
  let body := setOpt body "repeatFlag" (repeat_flag.map vStr)
  let body := setOpt body "priority" (priority.map vInt)
  let body := setOpt body "sortOrder" (sort_order.map vInt)
  let body := setOpt body "items" (items.map (fun v => vList (v.map vObj)))
  let body := setOpt body "tags" (tags.map (fun v => vList (v.map vStr)))
  body

/-- `TickTickClient.update_project` request body: `body = {}` then `if name:`,
`if color:`, `if view_mode:`, `if kind:` (Python truthiness, so a provided
empty string adds no key) and `if sort_order is not None:`. -/
def update_project_body (name color view_mode kind : Option String)
    (sort_order : Option Int) : Rec :=
  let body : Rec := []
  let body := setStrTruthy body "name" name
  let body := setStrTruthy body "color" color
  let body := setStrTruthy body "viewMode" view_mode
  let body := setStrTruthy body "kind" kind
  let body := setOpt body "sortOrder" (sort_order.map vInt)
  body

/-- `project_data.get("tasks", [])`: the task array of a
`get_project_with_data` response (a missing key yields the default `[]`; a
present non-list value, which the vendor never sends, is treated as `[]` as
well). -/
def tasks_field (r : Rec) : List Val :=
  match rget r "tasks" with
  | some (vList l) => l
  | _ => []

/-! ## `project_tools.py`: the inbox tool -/

/-- What one run of an MCP tool did: which endpoint (if any) it requested,
and the JSON object it returned to the caller. -/
structure ToolRun where
  requested : Option String
  response : Rec

/-- `ticktick_get_inbox_tasks`: the tool checks the client singleton, then
`client.inbox_id`, and only then issues `get_inbox_data()` (one request for
the inbox pseudo-project).  `client` is `none` when no client is initialised;
otherwise it carries the configured `user_id`.  `fetch` is the
`get_project_with_data` HTTP oracle. -/
def ticktick_get_inbox_tasks (client : Option (Option String))
    (fetch : String → Except TickTickAPIError Rec) : ToolRun :=
  match client with
  | none =>
      { requested := none
        response := [("error", vStr "Not authenticated. Please complete OAuth flow at /oauth/start")] }
  | some user_id =>
      match inbox_id user_id with
      | none =>
          { requested := none
            response := [("error", vStr "TICKTICK_USER_ID not set. Cannot access Inbox without user ID.")] }
      | some iid =>
          match fetch iid with
          | .ok data =>
              let tasks := tasks_field data
              { requested := some iid
                response := [("inbox_id", vStr iid), ("tasks", vList tasks),
                             ("task_count", vInt tasks.length)] }
          | .error e =>
              { requested := some iid
                response := [("error", vStr e.message), ("status_code", vInt e.statusCode)] }

/-! ## `TickTickClient.get_all_tasks` (`ticktick_client.py`) -/

/-- Errors that can escape `get_all_tasks`: a `TickTickAPIError` from the
unguarded `get_projects()` call, a `KeyError` from `project["id"]`, or a
`TypeError` when a project entry is not a dict (the per-claim theorems only
exercise well-formed project lists, where neither occurs). -/
inductive GetAllErr where
  | api : TickTickAPIError → GetAllErr
  | keyError : GetAllErr
  | typeError : GetAllErr

/-- The per-project loop of `get_all_tasks`: for each project, fetch
`/project/{id}/data` and extend the accumulator with its tasks; a
`TickTickAPIError` for one project is caught and that project is skipped. -/
def get_all_tasks_loop (fetch : String → Except TickTickAPIError Rec) :
    List Val → Except GetAllErr (List Val)
  | [] => .ok []
  | p :: ps =>
      match p with
      | vObj pr =>
          match rget pr "id" with
          | some (vStr pid) =>
              let tasks := match fetch pid with
                | .ok d => tasks_field d
                | .error _ => []
              (get_all_tasks_loop fetch ps).map (fun rest => tasks ++ rest)
          | some _ => .error .typeError
          | none => .error .keyError
      | _ => .error .typeError

/-- `TickTickClient.get_all_tasks`: Inbox tasks first (when `inbox_id` is
set; a failed Inbox fetch is caught and skipped), then every project's tasks
in the order returned by `get_projects()`, skipping projects whose fetch
raises `TickTickAPIError`.  `projectsRes` is the outcome of the unguarded
`get_projects()` call. -/
def get_all_tasks (user_id : Option String)
    (fetch : String → Except TickTickAPIError Rec)
    (projectsRes : Except TickTickAPIError (List Val)) :
    Except GetAllErr (List Val) :=
  let inboxTasks : List Val :=
    match inbox_id user_id with
    | some iid =>
        match fetch iid with
        | .ok d => tasks_field d
        | .error _ => []
    | none => []
  match projectsRes with
  | .error e => .error (.api e)
  | .ok projects => (get_all_tasks_loop fetch projects).map (fun ts => inboxTasks ++ ts)

/-! ## `unofficial_tools.py`: the pin tool

`unofficial_tools.py` is written against an `UnofficialAPIClient` with a
`call_api` escape hatch whose module is not part of the sources; following
the spec, `call_api` is abstracted into oracle parameters (the fetched task
and the batch-endpoint response), and `get_client()` is modelled from the
spec as returning `none` exactly when the unofficial credentials are not
configured. -/

/-- One run of `unofficial_pin_task`: `sent` is the record placed in the
`update` array of the `/api/v2/batch/task` payload (`none` when no batch
request was issued) and `response` is the dict returned to the caller. -/
structure PinRun where
  sent : Option Rec
  response : Rec

/-- `result.get("id2error", {}).get(task_id)` truthiness check performed on
the batch response. -/
def batch_id2error (result : Val) (task_id : String) : Bool :=
  match result with
  | vObj r =>
      match rget r "id2error" with
      | some (vObj errs) =>
          match rget errs task_id with
          | some v => valTruthy v
          | none => false
      | _ => false
  | _ => false

/-- `unofficial_pin_task(task_id)`.  `client` is `none` when `get_client()`
returns `None` (unofficial credentials absent: `_get_api_client` raises
`RuntimeError`, caught by the tool's `except` into an error dict — modelled
from the spec, see above).  `fetched` is the `GET /api/v2/task/{task_id}`
result (`none` for a falsy/absent task), `now` the formatted current UTC
timestamp, and `batchResult` the `/api/v2/batch/task` response. -/
def unofficial_pin_task (client : Option Unit) (task_id : String)
    (fetched : Option Rec) (now : String) (batchResult : Val) : PinRun :=
  match client with
  | none =>
      { sent := none
        response := [("error", vStr "Unofficial API not configured. Check TICKTICK_USERNAME and TICKTICK_PASSWORD.")] }
  | some _ =>
      match fetched with
      | none =>
          { sent := none
            response := [("error", vStr ("Task not found: " ++ task_id))] }
      | some task =>
          if task.isEmpty then
            { sent := none
              response := [("error", vStr ("Task not found: " ++ task_id))] }
          else
            let task' := rset task "pinnedTime" (vStr now)
            if batch_id2error batchResult task_id then
              { sent := some task'
                response := [("error", vStr ("Pin failed: " ++ task_id))] }
            else
              { sent := some task'
                response := [("success", vBool true),
                             ("message", vStr ("Task " ++ task_id ++ " pinned")),
                             ("pinnedTime", vStr now)] }

/-! ## `unofficial_client.py`: login, and `config.get_unofficial_client` -/

/-- `TickTickUnofficialAPIError(status_code, message)`. -/
structure TickTickUnofficialAPIError where
  statusCode : Int
  message : String

/-- `TickTickUnofficialClient.login(username, password)`: a single
`asyncio.to_thread(self._sync_login, ...)` call — there is no loop, no
sleep and no backoff in the source — mapped over a stream of attempt
outcomes (`attempts n` is whether the n-th login attempt against the vendor
would succeed).  Returns the login result together with how many attempts
were consumed. -/
def login (attempts : Nat → Bool) :
    Except TickTickUnofficialAPIError Bool × Nat :=
  if attempts 0 then (.ok true, 1)
  else (.error ⟨401, "Login failed"⟩, 1)

/-- A login procedure as the spec describes it (refinement reference, not
source code): retry with exponential backoff under a budget of 3 attempts,
succeeding as soon as one attempt succeeds. -/
def spec_login_with_retry (attempts : Nat → Bool) :
    Except TickTickUnofficialAPIError Bool × Nat :=
  if attempts 0 then (.ok true, 1)
  else if attempts 1 then (.ok true, 2)
  else if attempts 2 then (.ok true, 3)
  else (.error ⟨401, "Login failed"⟩, 3)

/-- The module-level state consulted by `config.get_unofficial_client`:
whether the `_unofficial_client` global exists, whether it is authenticated
(`_ticktick_client is not None`), and the `_unofficial_client_initialized`
flag. -/
structure UCState where
  clientExists : Bool
  clientAuth : Bool
  initialized : Bool
  deriving DecidableEq

/-- One call to `config.get_unofficial_client()`: `credsPresent` is whether
`USERNAME`/`PASSWORD` are configured, `loginOk` whether a login attempt made
during this call would succeed.  Returns the client handed to the caller
(`some auth` = a client with that authentication state, `none` = `None`) and
the new module state.  Note `init_unofficial_client` assigns the global
client before `login`, and `_unofficial_client_initialized` is set only
after a successful login, so a failed login leaves `initialized := false`
and the next call attempts a fresh login. -/
def get_unofficial_client_step (credsPresent loginOk : Bool) (s : UCState) :
    Option Bool × UCState :=
  if !credsPresent then (none, s)
  else if s.clientExists && s.clientAuth then (some true, s)
  else if !s.initialized then
    if loginOk then (some true, ⟨true, true, true⟩)
    else (none, ⟨true, false, false⟩)
  else ((if s.clientExists then some s.clientAuth else none), s)

/-! ## `config.py`: `_load_env_vars` -/

/-- A process environment / parsed dotenv file: ordered key-value pairs,
`os.getenv` returning the first binding. -/
abbrev EnvMap := List (String × String)

/-- `os.getenv(k)`. -/
def envGet (e : EnvMap) (k : String) : Option String :=
  match e with
  | [] => none
  | (k', v) :: rest => if k' = k then some v else envGet rest k

/-- Truthiness of `d.get(k)` when the value may be any JSON value. -/
def optValTruthy : Option Val → Bool
  | none => false
  | some v => valTruthy v

/-- The module-level configuration `_load_env_vars` populates. -/
structure Config where
  clientId : String
  clientSecret : String
  redirectUri : String
  accessToken : Option Val
  userId : Option String
  username : Option String
  password : Option String
  isCloudDeployment : Bool
  unofficialTokenCachePath : String
  writtenCloudToken : Option Rec

/-- How `_load_env_vars` can abort the process: `sys.exit(1)` (missing
credentials, missing or empty dotenv file), or an uncaught `TypeError` from
`int(time.time()) + token_data.get("expires_in", ...)` when the blob's
`expires_in` is not a number. -/
inductive LoadErr where
  | exitOne : LoadErr
  | typeError : LoadErr
  deriving DecidableEq

/-- `config._load_env_vars()`.

* `env` is the process environment; `dotenvFile` is the parsed
  `CONFIG_DIR/.env` (`none` when the file does not exist — filesystem reads
  and `mkdir` are abstracted; `load_dotenv(override=True)` overriding the
  environment is modelled by prepending the dotenv bindings, and it returns
  `False`, causing `sys.exit(1)`, exactly when the file is empty).
* `parseJson` stands for `json.loads` (`none` = `JSONDecodeError`);
* `now` is `int(time.time())`;
* `cachedTokenFile` is the parsed `CONFIG_DIR/.token-cache.json` (`none`
  when missing or unreadable).

Returns the populated configuration, or how the process died.  The part
after the dotenv fallback is split out as `_load_env_vars_resolved`, taking
the (possibly dotenv-overridden) environment. -/
def _load_env_vars_resolved (env2 : EnvMap)
    (parseJson : String → Option Rec) (now : Int)
    (cachedTokenFile : Option Rec) : Except LoadErr Config :=
    let cid := envGet env2 "TICKTICK_CLIENT_ID"
    let cs := envGet env2 "TICKTICK_CLIENT_SECRET"
    let ru := envGet env2 "TICKTICK_REDIRECT_URI"
    if !(strTruthy cid && strTruthy cs && strTruthy ru) then .error .exitOne
    else
      let accessToken0 : Option Val := (envGet env2 "TICKTICK_ACCESS_TOKEN").map vStr
      let oauthJson := envGet env2 "TICKTICK_OAUTH_TOKEN"
      let cloudRes : Except LoadErr (Bool × String × Option Rec × Option Val) :=
        if strTruthy oauthJson then
          match parseJson (oauthJson.getD "") with
          | some tokenData =>
              let expiresRes : Except LoadErr Int :=
                match rget tokenData "expires_in" with
                | none => .ok 15552000
                | some (vInt n) => .ok n
                | some _ => .error .typeError
              match expiresRes with
              | .error e => .error e
              | .ok n =>
                  let written := rset tokenData "expire_time" (vInt (now + n))
                  let at1 := if optValTruthy accessToken0 then accessToken0
                             else rget tokenData "access_token"
                  .ok (true, "/tmp/.token-oauth", some written, at1)
          | none => .ok (true, "/tmp/.token-oauth", none, accessToken0)
        else .ok (false, "~/.config/ticktick-mcp/.token-oauth", none, accessToken0)
      match cloudRes with
      | .error e => .error e
      | .ok (isCloud, cachePath, written, at1) =>
          let at2 := if optValTruthy at1 then at1
                     else match cachedTokenFile with
                          | some td => rget td "access_token"
                          | none => at1
          .ok { clientId := cid.getD ""
                clientSecret := cs.getD ""
                redirectUri := ru.getD ""
                accessToken := at2
                userId := envGet env2 "TICKTICK_USER_ID"
                username := envGet env2 "TICKTICK_USERNAME"
                password := envGet env2 "TICKTICK_PASSWORD"
                isCloudDeployment := isCloud
                unofficialTokenCachePath := cachePath
                writtenCloudToken := written }

/-- `config._load_env_vars()`: the dotenv-fallback step, then
`_load_env_vars_resolved` on the effective environment. -/
def _load_env_vars (env : EnvMap) (dotenvFile : Option EnvMap)
    (parseJson : String → Option Rec) (now : Int)
    (cachedTokenFile : Option Rec) : Except LoadErr Config :=
  let cid0 := envGet env "TICKTICK_CLIENT_ID"
  let cs0 := envGet env "TICKTICK_CLIENT_SECRET"
  let ru0 := envGet env "TICKTICK_REDIRECT_URI"
  let needDotenv := !(strTruthy cid0 && strTruthy cs0 && strTruthy ru0)
  let env2Res : Except LoadErr EnvMap :=
    if needDotenv then
      match dotenvFile with
      | none => .error .exitOne
      | some d => if d.isEmpty then .error .exitOne else .ok (d ++ env)
    else .ok env
  match env2Res with
  | .error e => .error e
  | .ok env2 => _load_env_vars_resolved env2 parseJson now cachedTokenFile

/-! ## Python string primitives

`String.splitOn`, `<` on `String` and `List.mergeSort` do not reduce in the
kernel, so the Python primitives used by the sources are embedded as
structurally recursive functions on `List Char`.  Python compares strings
lexicographically by code point, which is `strLtB` below. -/

/-- Python `a < b` on strings (lexicographic by code point), on the
underlying character lists. -/
def strLtB : List Char → List Char → Bool
  | [], [] => false
  | [], _ :: _ => true
  | _ :: _, [] => false
  | x :: xs, y :: ys => if x < y then true else if y < x then false else strLtB xs ys

/-- Python `a <= b` on strings. -/
def strLeB (a b : List Char) : Bool := !strLtB b a

/-- Insert into a sorted list, keeping the inserted element before any
element it is `le`-equal to. -/
def insertLe (le : α → α → Bool) (x : α) : List α → List α
  | [] => [x]
  | y :: ys => if le x y then x :: y :: ys else y :: insertLe le x ys

/-- Stable ascending sort by `le` (insertion sort).  For the reflexive total
orders used here the sorted permutation is unique, so this agrees with
Python's `sorted`. -/
def sortLe (le : α → α → Bool) : List α → List α
  | [] => []
  | x :: xs => insertLe le x (sortLe le xs)

/-- Python `sorted` on strings. -/
def pySorted (l : List String) : List String :=
  sortLe (fun a b => strLeB a.data b.data) l

/-- Python `min` on a non-empty list of strings (the first minimal element;
`min` compares with `<`). -/
def pyMinStr (d : String) (ds : List String) : String :=
  ds.foldl (fun acc x => if strLtB x.data acc.data then x else acc) d

/-- Python `d.replace("-", "")`. -/
def stripDashes (s : String) : String :=
  ⟨s.data.filter (fun c => c != '-')⟩

/-- Python `s.lower()` (ASCII range, which is all the sources feed it). -/
def pyLower (s : String) : String :=
  ⟨s.data.map (fun c => if 'A' ≤ c && c ≤ 'Z' then Char.ofNat (c.toNat + 32) else c)⟩

/-- Python `s.replace(old, new)` for a single-character pattern. -/
def charReplace (c : Char) (rep : List Char) (l : List Char) : List Char :=
  l.flatMap (fun x => if x = c then rep else [x])

/-! ## `unofficial_tools.py`: task construction -/

/-- `_normalize_repeat_from(value)`. -/
def _normalize_repeat_from (value : Option String) : Option String :=
  match value with
  | none => none
  | some v =>
      let normalized := ⟨(charReplace '-' ['_'] (charReplace ' ' ['_'] (pyLower v).data))⟩
      if normalized = "completion_date" || normalized = "completion" || normalized = "1" then some "1"
      else if normalized = "due_date" || normalized = "due" || normalized = "0" then some "0"
      else some v

/-- The `repeatFlag` string built from `specific_dates`:
`"ERULE:NAME=CUSTOM;BYDATE=" + ",".join(sorted([d.replace("-","") for d in dates]))`. -/
def erule_flag (dates : List String) : String :=
  "ERULE:NAME=CUSTOM;BYDATE=" ++ String.intercalate "," (pySorted (dates.map stripDashes))

/-- The task dict built by `unofficial_create_task` (the part before the
batch call).  Returns `none` when the builder itself raises — the only such
case is `reminders=[]`, where `reminders[0]` is an uncaught `IndexError`. -/
def unofficial_create_task_record (title project_id : String)
    (content desc start_date due_date : Option String) (priority : Int)
    (tags : Option (List String)) (reminders : Option (List String))
    (is_all_day : Bool) (repeat_flag repeat_from : Option String)
    (specific_dates : Option (List String)) (time_zone : String) :
    Option Rec :=
  let task : Rec := [("title", vStr title), ("projectId", vStr project_id),
                     ("priority", vInt priority), ("status", vInt 0),
                     ("timeZone", vStr time_zone), ("isAllDay", vBool is_all_day)]
  let task := if strTruthy content then rset task "content" (vStr (content.getD "")) else task
  let task := if strTruthy start_date then rset task "startDate" (vStr (start_date.getD "")) else task
  let task := if strTruthy due_date then rset task "dueDate" (vStr (due_date.getD "")) else task
  let task := match tags with
    | some (t :: ts) => rset task "tags" (vList ((t :: ts).map vStr))
    | _ => task
  let task := match desc with | some v => rset task "desc" (vStr v) | none => task
  let taskRes : Option Rec := match reminders with
    | none => some task
    | some [] => none
    | some (r :: rs) =>
        let task := rset task "reminder" (vStr r)
        some (if rs.length + 1 > 1
              then rset task "reminders" (vList ((r :: rs).map (fun x => vObj [("trigger", vStr x)])))
              else task)
  match taskRes with
  | none => none
  | some task =>
      match specific_dates with
      | some (d :: ds) =>
          let task := rset task "repeatFlag" (vStr (erule_flag (d :: ds)))
          let task := rset task "repeatFirstDate" (vStr (pyMinStr d ds ++ "T05:00:00.000+0000"))
          some (rset task "repeatFrom" (vStr "0"))
      | _ =>
          if strTruthy repeat_flag then
            let task := rset task "repeatFlag" (vStr (repeat_flag.getD ""))
            some (if strTruthy repeat_from
                  then rset task "repeatFrom" (vStr ((_normalize_repeat_from repeat_from).getD ""))
                  else task)
          else some task

/-- The updated task dict built by `unofficial_update_task` from the freshly
fetched `task` (the part between the fetch and the batch call).  Returns
`none` when the builder raises: `reminders=[]` (`IndexError`) or
`specific_dates=[]` (`min([])` is a `ValueError`). -/
def unofficial_update_task_record (task : Rec)
    (title content desc start_date due_date : Option String)
    (priority status : Option Int) (tags : Option (List String))
    (reminders : Option (List String)) (is_all_day : Option Bool)
    (repeat_flag repeat_from : Option String)
    (specific_dates : Option (List String)) (time_zone : String) :
    Option Rec :=
  let task := match title with | some v => rset task "title" (vStr v) | none => task
  let task := match content with | some v => rset task "content" (vStr v) | none => task
  let task := match start_date with | some v => rset task "startDate" (vStr v) | none => task
  let task := match due_date with | some v => rset task "dueDate" (vStr v) | none => task
  let task := match priority with | some v => rset task "priority" (vInt v) | none => task
  let task := match tags with | some v => rset task "tags" (vList (v.map vStr)) | none => task
  let task := match is_all_day with | some v => rset task "isAllDay" (vBool v) | none => task
  let task := match desc with | some v => rset task "desc" (vStr v) | none => task
  let taskRes : Option Rec := match reminders with
    | none => some task
    | some [] => none
    | some (r :: rs) =>
        let task := rset task "reminder" (vStr r)
        some (if rs.length + 1 > 1
              then rset task "reminders" (vList ((r :: rs).map (fun x => vObj [("trigger", vStr x)])))
              else rset task "reminders" (vList [vObj [("trigger", vStr r)]]))
  match taskRes with
  | none => none
  | some task =>
      let task := if start_date.isSome || due_date.isSome
                  then rset task "timeZone" (vStr time_zone) else task
      let task := match status with
        | some st =>
            let task := rset task "status" (vInt st)
            if st = 0 then rset task "completedTime" vNull else task
        | none => task
      match specific_dates with
      | some [] => none
      | some (d :: ds) =>
          let task := rset task "repeatFlag" (vStr (erule_flag (d :: ds)))
          let task := rset task "repeatFirstDate" (vStr (pyMinStr d ds ++ "T05:00:00.000+0000"))
          some (rset task "repeatFrom" (vStr "0"))
      | none =>
          let task := match repeat_flag with
            | some v => rset task "repeatFlag" (vStr v)
            | none => task
          some (match _normalize_repeat_from repeat_from with
                | some v => rset task "repeatFrom" (vStr v)
                | none => task)

/-! ## Calendar-date strings (spec side of the ERULE claim)

The spec phrases the ERULE construction in terms of the *dates* sorted
ascending; the source sorts the reformatted strings lexicographically.  To
compare the two, a `YYYY-MM-DD` string is recognised structurally and given
a numeric key (its digits read as a number, i.e. `y*10000 + m*100 + d`),
which orders such strings chronologically. -/

/-- Recogniser for ten-character `YYYY-MM-DD` shaped strings (digits with
dashes at positions 4 and 7). -/
def isDashedDate (s : String) : Bool :=
  match s.data with
  | [y1, y2, y3, y4, h1, m1, m2, h2, d1, d2] =>
      y1.isDigit && y2.isDigit && y3.isDigit && y4.isDigit && h1 == '-' &&
      m1.isDigit && m2.isDigit && h2 == '-' && d1.isDigit && d2.isDigit
  | _ => false

/-- The number denoted by a most-significant-first digit string. -/
def digitsVal : List Char → Nat
  | [] => 0
  | c :: cs => (c.toNat - 48) * 10 ^ cs.length + digitsVal cs

/-- Chronological key of a `YYYY-MM-DD` string: `y*10000 + m*100 + d`. -/
def dateKey (s : String) : Nat := digitsVal (stripDashes s).data

/-- The dates sorted ascending chronologically (spec wording). -/
def specSortedByDate (l : List String) : List String :=
  sortLe (fun a b => decide (dateKey a ≤ dateKey b)) l

/-- The `repeatFlag` the spec describes: sort the requested dates ascending,
reformat each as `YYYYMMDD`, join with commas. -/
def spec_erule_flag (dates : List String) : String :=
  "ERULE:NAME=CUSTOM;BYDATE=" ++
    String.intercalate "," ((specSortedByDate dates).map stripDashes)

/-! ## `task_tools.py`: `_format_date_for_ticktick`

The embedding needs `datetime.fromisoformat`, timezone application and
`strftime`.  `pyFromIso` below covers the fragment of `fromisoformat` the
theorems exercise — `YYYY-MM-DD'T'HH:MM[:SS[.fff[fff]]]` with an optional
`±HH:MM[:SS]` / `±HHMM[SS]` offset, range-checked as Python does — richer
inputs Python would accept are out of scope.  Timezone objects
(`zoneinfo.ZoneInfo`) are abstracted as a pair of conversions. -/

/-- Python's last-occurrence index, `s.rfind(c)` (`-1` when absent). -/
def pyRfindAux (c : Char) : List Char → Option Nat
  | [] => none
  | x :: xs =>
      match pyRfindAux c xs with
      | some i => some (i + 1)
      | none => if x = c then some 0 else none

/-- `s.rfind(c)` as an `Int`. -/
def pyRfind (c : Char) (l : List Char) : Int :=
  match pyRfindAux c l with
  | some i => (i : Int)
  | none => -1

/-- Python `sep in s` for a substring `pat`. -/
def containsSeq (pat : List Char) : List Char → Bool
  | [] => pat.isEmpty
  | c :: cs => pat.isPrefixOf (c :: cs) || containsSeq pat cs

/-- Python `s.split(sep)` for a single-character separator. -/
def pySplitChar (sep : Char) : List Char → List (List Char)
  | [] => [[]]
  | c :: cs =>
      match pySplitChar sep cs with
      | [] => [[]]
      | p :: ps => if c = sep then [] :: p :: ps else (c :: p) :: ps

/-- A `datetime.datetime` value: calendar fields plus an optional fixed
UTC offset in seconds (`tzOffset = none` is a naive datetime). -/
structure PyDateTime where
  year : Nat
  month : Nat
  day : Nat
  hour : Nat
  minute : Nat
  second : Nat
  micro : Nat
  tzOffset : Option Int
  deriving DecidableEq

/-- An abstract `zoneinfo.ZoneInfo`: `localize` is `dt.replace(tzinfo=tz)`
(attach the zone to a naive datetime), `convert` is `dt.astimezone(tz)`
(translate an aware datetime into the zone).  Both are opaque here; no
theorem below constrains them. -/
structure TZModel where
  localize : PyDateTime → PyDateTime
  convert : PyDateTime → PyDateTime

/-- Two decimal digits. -/
def digit2 : List Char → Option (Nat × List Char)
  | a :: b :: rest =>
      if a.isDigit && b.isDigit then some ((a.toNat - 48) * 10 + (b.toNat - 48), rest)
      else none
  | _ => none

/-- Leap year per the Gregorian rule (`calendar.isleap`). -/
def isLeap (y : Nat) : Bool := y % 4 = 0 && (y % 100 != 0 || y % 400 = 0)

/-- Days in a month. -/
def daysInMonth (y m : Nat) : Nat :=
  if m = 2 then (if isLeap y then 29 else 28)
  else if m = 4 || m = 6 || m = 9 || m = 11 then 30
  else 31

/-- Optional fractional-seconds part: `.fff` or `.ffffff`, as microseconds. -/
def parseFrac : List Char → Option (Nat × List Char)
  | '.' :: a :: b :: c :: rest =>
      if a.isDigit && b.isDigit && c.isDigit then
        let ms := (a.toNat - 48) * 100 + (b.toNat - 48) * 10 + (c.toNat - 48)
        match rest with
        | d :: e :: f :: rest2 =>
            if d.isDigit && e.isDigit && f.isDigit then
              some (ms * 1000 + (d.toNat - 48) * 100 + (e.toNat - 48) * 10 + (f.toNat - 48), rest2)
            else some (ms * 1000, rest)
        | _ => some (ms * 1000, rest)
      else none
  | _ => none

/-- Optional trailing UTC offset: `±HH:MM[:SS]` or `±HHMM[SS]`, range-checked,
consuming the whole rest of the string.  Returns the offset in seconds. -/
def parseOffset : List Char → Option (Option Int)
  | [] => some none
  | sign :: rest =>
      if sign = '+' || sign = '-' then
        match digit2 rest with
        | none => none
        | some (hh, rest1) =>
            let cont : Option (Nat × Nat) :=
              match rest1 with
              | ':' :: rest2 =>
                  match digit2 rest2 with
                  | none => none
                  | some (mm, rest3) =>
                      match rest3 with
                      | [] => some (mm, 0)
                      | ':' :: rest4 =>
                          match digit2 rest4 with
                          | some (ss, []) => some (mm, ss)
                          | _ => none
                      | _ => none
              | _ =>
                  match digit2 rest1 with
                  | none => none
                  | some (mm, rest3) =>
                      match rest3 with
                      | [] => some (mm, 0)
                      | _ =>
                          match digit2 rest3 with
                          | some (ss, []) => some (mm, ss)
                          | _ => none
            match cont with
            | none => none
            | some (mm, ss) =>
                if hh ≤ 23 && mm ≤ 59 && ss ≤ 59 then
                  let total : Int := (hh : Int) * 3600 + (mm : Int) * 60 + (ss : Int)
                  some (some (if sign = '-' then -total else total))
                else none
      else none

/-- `datetime.fromisoformat` on the fragment described above. -/
def pyFromIso (s : String) : Option PyDateTime :=
  match digit2 s.data with
  | none => none
  | some (y12, r1) =>
      match digit2 r1 with
      | none => none
      | some (y34, r2) =>
          let y := y12 * 100 + y34
          match r2 with
          | '-' :: r3 =>
              match digit2 r3 with
              | none => none
              | some (mo, r4) =>
                  match r4 with
                  | '-' :: r5 =>
                      match digit2 r5 with
                      | none => none
                      | some (dy, r6) =>
                          match r6 with
                          | 'T' :: r7 =>
                              match digit2 r7 with
                              | none => none
                              | some (hh, r8) =>
                                  match r8 with
                                  | ':' :: r9 =>
                                      match digit2 r9 with
                                      | none => none
                                      | some (mi, r10) =>
                                          let secPart : Option (Nat × Nat × List Char) :=
                                            match r10 with
                                            | ':' :: r11 =>
                                                match digit2 r11 with
                                                | none => none
                                                | some (se, r12) =>
                                                    match parseFrac r12 with
                                                    | some (us, r13) => some (se, us, r13)
                                                    | none => some (se, 0, r12)
                                            | _ => some (0, 0, r10)
                                          match secPart with
                                          | none => none
                                          | some (se, us, r14) =>
                                              match parseOffset r14 with
                                              | none => none
                                              | some off =>
                                                  if 1 ≤ y && 1 ≤ mo && mo ≤ 12 &&
                                                     1 ≤ dy && dy ≤ daysInMonth y mo &&
                                                     hh ≤ 23 && mi ≤ 59 && se ≤ 59 then
                                                    some ⟨y, mo, dy, hh, mi, se, us, off⟩
                                                  else none
                                  | _ => none
                          | _ => none
                  | _ => none
          | _ => none

/-- The ASCII digit character for `n < 10`. -/
def digitChar (n : Nat) : Char := Char.ofNat (48 + n)

/-- Zero-padded two-digit rendering (`%H`, `%M`, `%S`, `%m`, `%d`). -/
def pad2 (n : Nat) : String := ⟨[digitChar (n / 10 % 10), digitChar (n % 10)]⟩

/-- Zero-padded four-digit rendering (`%Y` for years up to 9999). -/
def pad4 (n : Nat) : String :=
  ⟨[digitChar (n / 1000 % 10), digitChar (n / 100 % 10), digitChar (n / 10 % 10), digitChar (n % 10)]⟩

/-- `dt.strftime('%z')` for a fixed offset in seconds: `±HHMM`, with a
seconds part appended only when non-zero. -/
def strftimeZ (off : Int) : String :=
  let a := off.natAbs
  (if off < 0 then "-" else "+") ++ pad2 (a / 3600) ++ pad2 (a % 3600 / 60) ++
    (if a % 60 = 0 then "" else pad2 (a % 60))

/-- `dt.strftime('%Y-%m-%dT%H:%M:%S.000' + offsetStr)`: note `.000` is a
literal in the format string, so actual microseconds never appear. -/
def strftimeTickTick (dt : PyDateTime) (offStr : String) : String :=
  pad4 dt.year ++ "-" ++ pad2 dt.month ++ "-" ++ pad2 dt.day ++ "T" ++
    pad2 dt.hour ++ ":" ++ pad2 dt.minute ++ ":" ++ pad2 dt.second ++ ".000" ++ offStr

/-- The parse-and-reformat tail of `_format_date_for_ticktick` (everything
after the early-return block): parse, apply the timezone when one is given
and resolvable (a `ZoneInfo` failure is caught and ignored), then format
with the offset (or `+0000` for a naive result); an unparseable string is
returned unchanged. -/
def formatParseBranch (tzdb : String → Option TZModel) (s : String)
    (time_zone : Option String) : String :=
  let l := s.data
  let target : String :=
    if l.contains 'T' then ⟨charReplace 'Z' "+00:00".data l⟩ else s ++ "T00:00:00"
  match pyFromIso target with
  | none => s
  | some dt =>
      let dt := match time_zone with
        | some tzName =>
            if tzName = "" then dt
            else
              match tzdb tzName with
              | some tz => if dt.tzOffset = none then tz.localize dt else tz.convert dt
              | none => dt
        | none => dt
      match dt.tzOffset with
      | some off => strftimeTickTick dt (strftimeZ off)
      | none => strftimeTickTick dt "+0000"

/-- `task_tools._format_date_for_ticktick(date_str, time_zone)`.  `tzdb` is
the `zoneinfo` database (`none` = `ZoneInfo` raises for that name). -/
def _format_date_for_ticktick (tzdb : String → Option TZModel)
    (date_str : Option String) (time_zone : Option String) : Option String :=
  match date_str with
  | none => none
  | some s =>
    if s = "" then none
    else
      let l := s.data
      let last6 := l.drop (l.length - 6)
      if 10 < l.length && (last6.contains '+' || last6.contains '-') then
        if 10 < pyRfind '-' l || last6.contains '+' then
          if !containsSeq ".000".data l then
            if l.contains '+' then
              let parts := pySplitChar '+' l
              some ⟨parts.headD [] ++ ".000+".data ++ (parts.tail.headD [])⟩
            else
              let idx := pyRfind '-' l
              if 10 < idx then
                some ⟨l.take idx.toNat ++ ".000".data ++ l.drop idx.toNat⟩
              else some s
          else some s
        else some (formatParseBranch tzdb s time_zone)
      else some (formatParseBranch tzdb s time_zone)

/-! ## Record lemmas -/

theorem rget_rset (r : Rec) (k k' : String) (v : Val) :
    rget (rset r k v) k' = if k' = k then some v else rget r k' := by
  induction r with
  | nil =>
      rcases eq_or_ne k' k with h | h
      · subst h; simp [rset, rget]
      · simp [rset, rget, h, h.symm]
  | cons p rest ih =>
      obtain ⟨k0, v0⟩ := p
      by_cases h0 : k0 = k
      · subst h0
        rcases eq_or_ne k' k0 with h1 | h1
        · subst h1; simp [rset, rget]
        · simp [rset, rget, h1, h1.symm]
      · rcases eq_or_ne k0 k' with h1 | h1
        · subst h1
          simp [rset, rget, h0]
        · simp [rset, rget, h0, h1, ih]

theorem rset_append {r : Rec} {k : String} (v : Val) (h : rget r k = none) :
    rset r k v = r ++ [(k, v)] := by
  induction r with
  | nil => rfl
  | cons p rest ih =>
      obtain ⟨k0, v0⟩ := p
      simp only [rget] at h
      by_cases h0 : k0 = k
      · simp [h0] at h
      · simp only [rset, if_neg h0, List.cons_append, List.cons.injEq, true_and]
        exact ih (by simpa [h0] using h)

theorem rget_setOpt_ne {b : Rec} {k k' : String} {o : Option Val} (h : k' ≠ k) :
    rget (setOpt b k o) k' = rget b k' := by
  cases o with
  | none => rfl
  | some v => simp [setOpt, rget_rset, h]

theorem rget_setOpt_self (b : Rec) (k : String) (o : Option Val) :
    rget (setOpt b k o) k = (o.orElse fun _ => rget b k) := by
  cases o with
  | none => rfl
  | some v => simp [setOpt, rget_rset]

theorem setOpt_keys {b : Rec} {k : String} {o : Option Val} (h : rget b k = none) :
    (setOpt b k o).map Prod.fst = b.map Prod.fst ++ (if o.isSome then [k] else []) := by
  cases o with
  | none => simp [setOpt]
  | some v => simp [setOpt, rset_append v h]

theorem rget_setStrTruthy_ne {b : Rec} {k k' : String} {o : Option String} (h : k' ≠ k) :
    rget (setStrTruthy b k o) k' = rget b k' := by
  unfold setStrTruthy
  by_cases ht : strTruthy o
  · simp [ht, rget_rset, h]
  · simp [ht]

theorem setStrTruthy_keys {b : Rec} {k : String} {o : Option String}
    (h : rget b k = none) :
    (setStrTruthy b k o).map Prod.fst =
      b.map Prod.fst ++ (if strTruthy o then [k] else []) := by
  unfold setStrTruthy
  by_cases ht : strTruthy o
  · simp [ht, rset_append _ h]
  · simp [ht]

/-! ## C1: the pin tool's fetch-then-mutate behaviour -/

/-- C1 (counterexample): the claim also asserts the unchanged fields appear
"in the record reported back to the caller", but `unofficial_pin_task`
reports no task record at all: for a fetched task whose `content` is the
non-empty `"notes"`, the tool's response is exactly a success/message/
pinnedTime dict, with no `content` and no task record in it. -/
theorem C1_pin_reports_no_record :
    rget [("id", vStr "t1"), ("projectId", vStr "p1"), ("content", vStr "notes")] "content"
      = some (vStr "notes") ∧
    (unofficial_pin_task (some ()) "t1"
        (some [("id", vStr "t1"), ("projectId", vStr "p1"), ("content", vStr "notes")])
        "2026-02-05T12:00:00.000+0000" (vObj [("id2etag", vObj [])])).response
      = [("success", vBool true), ("message", vStr "Task t1 pinned"),
         ("pinnedTime", vStr "2026-02-05T12:00:00.000+0000")] ∧
    rget (unofficial_pin_task (some ()) "t1"
        (some [("id", vStr "t1"), ("projectId", vStr "p1"), ("content", vStr "notes")])
        "2026-02-05T12:00:00.000+0000" (vObj [("id2etag", vObj [])])).response "content" = none ∧
    rget (unofficial_pin_task (some ()) "t1"
        (some [("id", vStr "t1"), ("projectId", vStr "p1"), ("content", vStr "notes")])
        "2026-02-05T12:00:00.000+0000" (vObj [("id2etag", vObj [])])).response "task" = none :=
  ⟨rfl, rfl, rfl, rfl⟩

/-- C1 (amended): `unofficial_pin_task` fetches the full task record, changes
only the `pinnedTime` field in memory, and places that whole record in the
batch update payload: the sent record is exactly the fetched record with
`pinnedTime` set to the current timestamp, and every other field of the
fetched record is unchanged in it.  (The response to the caller carries only
a success message and the new `pinnedTime`, not the record.) -/
theorem C1_pin_sends_full_record (task : Rec) (task_id now : String) (batch : Val)
    (h : task ≠ []) :
    (unofficial_pin_task (some ()) task_id (some task) now batch).sent
        = some (rset task "pinnedTime" (vStr now)) ∧
    rget (rset task "pinnedTime" (vStr now)) "pinnedTime" = some (vStr now) ∧
    ∀ k, k ≠ "pinnedTime" → rget (rset task "pinnedTime" (vStr now)) k = rget task k := by
  have hne : task.isEmpty = false := by
    cases task with
    | nil => exact absurd rfl h
    | cons a l => rfl
  refine ⟨?_, ?_, ?_⟩
  · unfold unofficial_pin_task
    by_cases hb : batch_id2error batch task_id <;> simp [hne, hb]
  · simp [rget_rset]
  · intro k hk
    simp [rget_rset, hk]

/-- C1 (witness). -/
theorem C1_pin_sends_full_record_witness :
    ([("id", vStr "t1"), ("content", vStr "notes")] : Rec) ≠ [] ∧
    ("content" : String) ≠ "pinnedTime" ∧
    (unofficial_pin_task (some ()) "t1" (some [("id", vStr "t1"), ("content", vStr "notes")])
        "NOW" vNull).sent
      = some (rset [("id", vStr "t1"), ("content", vStr "notes")] "pinnedTime" (vStr "NOW")) ∧
    rget (rset [("id", vStr "t1"), ("content", vStr "notes")] "pinnedTime" (vStr "NOW")) "content"
      = rget [("id", vStr "t1"), ("content", vStr "notes")] "content" := by
  have h : ([("id", vStr "t1"), ("content", vStr "notes")] : Rec) ≠ [] := by simp
  have h2 : ("content" : String) ≠ "pinnedTime" := by decide
  exact ⟨h, h2, (C1_pin_sends_full_record _ "t1" "NOW" vNull h).1,
    (C1_pin_sends_full_record _ "t1" "NOW" vNull h).2.2 "content" h2⟩

/-! ## C7: inbox addressing -/

/-- C7: with no user id configured, `ticktick_get_inbox_tasks` returns a
structured error containing "TICKTICK_USER_ID not set" and issues no
request; for a non-empty configured user id the Inbox identifier is
`"inbox" ++ userId`, and for `"115085635"` the tool requests exactly
`"inbox115085635"`. -/
theorem C7_inbox_addressing :
    (∀ fetch, (ticktick_get_inbox_tasks (some none) fetch).requested = none ∧
      rget (ticktick_get_inbox_tasks (some none) fetch).response "error"
        = some (vStr "TICKTICK_USER_ID not set. Cannot access Inbox without user ID.") ∧
      containsSeq "TICKTICK_USER_ID not set".data
        "TICKTICK_USER_ID not set. Cannot access Inbox without user ID.".data = true) ∧
    (∀ u : String, u ≠ "" → inbox_id (some u) = some ("inbox" ++ u)) ∧
    inbox_id (some "115085635") = some "inbox115085635" ∧
    (∀ fetch, (ticktick_get_inbox_tasks (some (some "115085635")) fetch).requested
        = some "inbox115085635") := by
  refine ⟨fun fetch => ⟨rfl, rfl, by decide⟩, fun u hu => by simp [inbox_id, hu], rfl, fun fetch => ?_⟩
  have hid : inbox_id (some "115085635") = some "inbox115085635" := rfl
  cases h : fetch "inbox115085635" <;>
    simp [ticktick_get_inbox_tasks, hid, h]

/-- C7 (witness). -/
theorem C7_inbox_addressing_witness :
    ("115085635" : String) ≠ "" ∧
    inbox_id (some "115085635") = some ("inbox" ++ "115085635") ∧
    (ticktick_get_inbox_tasks (some none) (fun _ => .ok [])).requested = none ∧
    (ticktick_get_inbox_tasks (some (some "115085635")) (fun _ => .ok [])).requested
      = some "inbox115085635" := by
  have hu : ("115085635" : String) ≠ "" := by decide
  exact ⟨hu, C7_inbox_addressing.2.1 "115085635" hu,
    (C7_inbox_addressing.1 (fun _ => .ok [])).1,
    C7_inbox_addressing.2.2.2 (fun _ => .ok [])⟩

/-! ## C8: partial-update body construction -/

/-- C8 (counterexample): `update_project` drops a provided-but-empty `name`
(the source guards with Python truthiness, `if name:`, not `is not None`),
so the body does not get one key per provided argument: with `name = some ""`
the body is empty instead of containing a `name` key. -/
theorem C8_update_project_drops_empty_name :
    (update_project_body (some "") none none none none).map Prod.fst = [] ∧
    (update_project_body (some "") none none none none).map Prod.fst ≠ ["name"] ∧
    rget (update_project_body (some "") none none none none) "name" = none := by
  refine ⟨rfl, ?_, rfl⟩
  have h0 : (update_project_body (some "") none none none none).map Prod.fst
      = ([] : List String) := rfl
  rw [h0]
  simp

/-- C8 (amended): `update_task` sends exactly `id`, `projectId` plus one key
per argument provided (`is not None`), in source order; `update_project`
sends one key per provided *truthy* string argument (a provided empty string
is dropped) plus `sortOrder` whenever provided; an omitted argument
contributes no key. -/
theorem C8_update_bodies_exact_keys (task_id project_id : String)
    (title content desc : Option String) (is_all_day : Option Bool)
    (start_date due_date time_zone : Option String)
    (reminders : Option (List String)) (repeat_flag : Option String)
    (priority sort_order : Option Int) (items : Option (List Rec))
    (tags : Option (List String))
    (name color view_mode kind : Option String) (p_sort_order : Option Int) :
    (update_task_body task_id project_id title content desc is_all_day start_date
        due_date time_zone reminders repeat_flag priority sort_order items tags).map Prod.fst =
      ["id", "projectId"] ++ (if title.isSome then ["title"] else []) ++
      (if content.isSome then ["content"] else []) ++
      (if desc.isSome then ["desc"] else []) ++
      (if is_all_day.isSome then ["isAllDay"] else []) ++
      (if start_date.isSome then ["startDate"] else []) ++
      (if due_date.isSome then ["dueDate"] else []) ++
      (if time_zone.isSome then ["timeZone"] else []) ++
      (if reminders.isSome then ["reminders"] else []) ++
      (if repeat_flag.isSome then ["repeatFlag"] else []) ++
      (if priority.isSome then ["priority"] else []) ++
      (if sort_order.isSome then ["sortOrder"] else []) ++
      (if items.isSome then ["items"] else []) ++
      (if tags.isSome then ["tags"] else []) ∧
    rget (update_task_body task_id project_id title content desc is_all_day start_date
        due_date time_zone reminders repeat_flag priority sort_order items tags) "id"
      = some (vStr task_id) ∧
    rget (update_task_body task_id project_id title content desc is_all_day start_date
        due_date time_zone reminders repeat_flag priority sort_order items tags) "projectId"
      = some (vStr project_id) ∧
    (update_project_body name color view_mode kind p_sort_order).map Prod.fst =
      (if strTruthy name then ["name"] else []) ++
      (if strTruthy color then ["color"] else []) ++
      (if strTruthy view_mode then ["viewMode"] else []) ++
      (if strTruthy kind then ["kind"] else []) ++
      (if p_sort_order.isSome then ["sortOrder"] else []) := by
  refine ⟨?_, ?_, ?_, ?_⟩
  · simp (disch := simp [rget_setOpt_ne, rget]) only [update_task_body, setOpt_keys]
    simp [List.append_assoc]
  · simp [update_task_body, rget_setOpt_ne, rget]
  · simp [update_task_body, rget_setOpt_ne, rget]
  · simp (disch := simp [rget_setStrTruthy_ne, rget_setOpt_ne, rget]) only
      [update_project_body, setStrTruthy_keys, setOpt_keys]
    simp [List.append_assoc]

/-! ## Environment / config lemmas -/

theorem envGet_append (d e : EnvMap) (k : String) :
    envGet (d ++ e) k = match envGet d k with
      | some v => some v
      | none => envGet e k := by
  induction d with
  | nil => rfl
  | cons p rest ih =>
      obtain ⟨k0, v0⟩ := p
      by_cases h : k0 = k <;> simp [envGet, h, ih]

theorem load_resolved_ok_fields {env2 : EnvMap} {pj : String → Option Rec}
    {now : Int} {cache : Option Rec} {cfg : Config}
    (h : _load_env_vars_resolved env2 pj now cache = .ok cfg) :
    cfg.clientId = (envGet env2 "TICKTICK_CLIENT_ID").getD "" ∧
    cfg.clientSecret = (envGet env2 "TICKTICK_CLIENT_SECRET").getD "" ∧
    cfg.redirectUri = (envGet env2 "TICKTICK_REDIRECT_URI").getD "" ∧
    cfg.userId = envGet env2 "TICKTICK_USER_ID" ∧
    cfg.username = envGet env2 "TICKTICK_USERNAME" ∧
    cfg.password = envGet env2 "TICKTICK_PASSWORD" := by
  unfold _load_env_vars_resolved at h
  cases h3 : (strTruthy (envGet env2 "TICKTICK_CLIENT_ID") &&
      strTruthy (envGet env2 "TICKTICK_CLIENT_SECRET") &&
      strTruthy (envGet env2 "TICKTICK_REDIRECT_URI")) with
  | false => simp [h3] at h
  | true =>
      simp only [h3, Bool.not_true, Bool.false_eq_true, if_false] at h
      cases ho : strTruthy (envGet env2 "TICKTICK_OAUTH_TOKEN") with
      | false =>
          simp only [ho, Bool.false_eq_true, if_false, Except.ok.injEq] at h
          subst h
          exact ⟨rfl, rfl, rfl, rfl, rfl, rfl⟩
      | true =>
          simp only [ho, if_true] at h
          cases hp : pj ((envGet env2 "TICKTICK_OAUTH_TOKEN").getD "") with
          | none =>
              simp only [hp, Except.ok.injEq] at h
              subst h
              exact ⟨rfl, rfl, rfl, rfl, rfl, rfl⟩
          | some tokenData =>
              simp only [hp] at h
              cases hr : rget tokenData "expires_in" with
              | none =>
                  simp only [hr, Except.ok.injEq] at h
                  subst h
                  exact ⟨rfl, rfl, rfl, rfl, rfl, rfl⟩
              | some val =>
                  simp only [hr] at h
                  cases val with
                  | vInt n =>
                      simp only [Except.ok.injEq] at h
                      subst h
                      exact ⟨rfl, rfl, rfl, rfl, rfl, rfl⟩
                  | vNull => exact Except.noConfusion h
                  | vBool b => exact Except.noConfusion h
                  | vStr s => exact Except.noConfusion h
                  | vList l => exact Except.noConfusion h
                  | vObj o => exact Except.noConfusion h

/-! ## C3: credential precedence between environment and dotenv -/

/-- C3 (counterexample): with `TICKTICK_CLIENT_SECRET` missing from the
environment but `TICKTICK_CLIENT_ID = "A"` and `TICKTICK_REDIRECT_URI = "R"`
set there, and a dotenv file defining all three (with `CLIENT_ID = "B"`,
`REDIRECT_URI = "R2"`), the dotenv file is loaded with `override=True` and
its values win: the resulting configuration has `clientId = "B"` (not the
environment's `"A"`) and `redirectUri = "R2"` (not `"R"`). -/
theorem C3_dotenv_overrides_env :
    envGet [("TICKTICK_CLIENT_ID", "A"), ("TICKTICK_REDIRECT_URI", "R")]
        "TICKTICK_CLIENT_ID" = some "A" ∧
    (_load_env_vars [("TICKTICK_CLIENT_ID", "A"), ("TICKTICK_REDIRECT_URI", "R")]
        (some [("TICKTICK_CLIENT_ID", "B"), ("TICKTICK_CLIENT_SECRET", "S"),
               ("TICKTICK_REDIRECT_URI", "R2")])
        (fun _ => none) 0 none).map Config.clientId = .ok "B" ∧
    (_load_env_vars [("TICKTICK_CLIENT_ID", "A"), ("TICKTICK_REDIRECT_URI", "R")]
        (some [("TICKTICK_CLIENT_ID", "B"), ("TICKTICK_CLIENT_SECRET", "S"),
               ("TICKTICK_REDIRECT_URI", "R2")])
        (fun _ => none) 0 none).map Config.clientId ≠ .ok "A" ∧
    (_load_env_vars [("TICKTICK_CLIENT_ID", "A"), ("TICKTICK_REDIRECT_URI", "R")]
        (some [("TICKTICK_CLIENT_ID", "B"), ("TICKTICK_CLIENT_SECRET", "S"),
               ("TICKTICK_REDIRECT_URI", "R2")])
        (fun _ => none) 0 none).map Config.redirectUri = .ok "R2" := by
  refine ⟨rfl, rfl, ?_, rfl⟩
  intro h
  have : ("B" : String) = "A" := by
    have h2 : (Except.ok "B" : Except LoadErr String) = .ok "A" := by
      calc (Except.ok "B" : Except LoadErr String)
          = (_load_env_vars [("TICKTICK_CLIENT_ID", "A"), ("TICKTICK_REDIRECT_URI", "R")]
              (some [("TICKTICK_CLIENT_ID", "B"), ("TICKTICK_CLIENT_SECRET", "S"),
                     ("TICKTICK_REDIRECT_URI", "R2")])
              (fun _ => none) 0 none).map Config.clientId := rfl
        _ = .ok "A" := h
    exact Except.ok.inj h2
  exact absurd this (by decide)

/-- C3 (amended): when all three OAuth variables are set (non-empty) in the
process environment, the dotenv file is never loaded — the outcome is
independent of it — and the resulting credentials are the environment's
values.  When at least one is missing, the dotenv file is loaded with
`override=True`, so for every key the dotenv file defines, the dotenv value
wins over the environment's. -/
theorem C3_env_wins_only_without_dotenv_load :
    (∀ (env : EnvMap) (d1 d2 : Option EnvMap) (pj : String → Option Rec)
        (now : Int) (cache : Option Rec),
      (strTruthy (envGet env "TICKTICK_CLIENT_ID") &&
       strTruthy (envGet env "TICKTICK_CLIENT_SECRET") &&
       strTruthy (envGet env "TICKTICK_REDIRECT_URI")) = true →
      _load_env_vars env d1 pj now cache = _load_env_vars env d2 pj now cache) ∧
    (∀ (env : EnvMap) (d : Option EnvMap) (pj : String → Option Rec)
        (now : Int) (cache : Option Rec) (cfg : Config),
      (strTruthy (envGet env "TICKTICK_CLIENT_ID") &&
       strTruthy (envGet env "TICKTICK_CLIENT_SECRET") &&
       strTruthy (envGet env "TICKTICK_REDIRECT_URI")) = true →
      _load_env_vars env d pj now cache = .ok cfg →
      cfg.clientId = (envGet env "TICKTICK_CLIENT_ID").getD "" ∧
      cfg.clientSecret = (envGet env "TICKTICK_CLIENT_SECRET").getD "" ∧
      cfg.redirectUri = (envGet env "TICKTICK_REDIRECT_URI").getD "") ∧
    (∀ (env : EnvMap) (d : EnvMap) (pj : String → Option Rec)
        (now : Int) (cache : Option Rec) (cfg : Config),
      (strTruthy (envGet env "TICKTICK_CLIENT_ID") &&
       strTruthy (envGet env "TICKTICK_CLIENT_SECRET") &&
       strTruthy (envGet env "TICKTICK_REDIRECT_URI")) = false →
      d.isEmpty = false →
      _load_env_vars env (some d) pj now cache = .ok cfg →
      cfg.clientId = (envGet (d ++ env) "TICKTICK_CLIENT_ID").getD "" ∧
      cfg.clientSecret = (envGet (d ++ env) "TICKTICK_CLIENT_SECRET").getD "" ∧
      cfg.redirectUri = (envGet (d ++ env) "TICKTICK_REDIRECT_URI").getD "" ∧
      ∀ k v, envGet d k = some v → envGet (d ++ env) k = some v) := by
  refine ⟨?_, ?_, ?_⟩
  · intro env d1 d2 pj now cache h
    simp [_load_env_vars, h]
  · intro env d pj now cache cfg h heq
    simp only [_load_env_vars, h, Bool.not_true, Bool.false_eq_true, if_false] at heq
    obtain ⟨h1, h2, h3, -⟩ := load_resolved_ok_fields heq
    exact ⟨h1, h2, h3⟩
  · intro env d pj now cache cfg h hne heq
    simp only [_load_env_vars, h, Bool.not_false, if_true, hne, Bool.false_eq_true,
      if_false] at heq
    obtain ⟨h1, h2, h3, -⟩ := load_resolved_ok_fields heq
    refine ⟨h1, h2, h3, ?_⟩
    intro k v hk
    rw [envGet_append, hk]

/-- C3 (witness). -/
theorem C3_env_wins_only_without_dotenv_load_witness :
    ((strTruthy (envGet [("TICKTICK_CLIENT_ID", "A")] "TICKTICK_CLIENT_ID") &&
      strTruthy (envGet [("TICKTICK_CLIENT_ID", "A")] "TICKTICK_CLIENT_SECRET") &&
      strTruthy (envGet [("TICKTICK_CLIENT_ID", "A")] "TICKTICK_REDIRECT_URI")) = false) ∧
    ([("TICKTICK_CLIENT_ID", "B"), ("TICKTICK_CLIENT_SECRET", "S"),
      ("TICKTICK_REDIRECT_URI", "R2")] : EnvMap).isEmpty = false ∧
    envGet ([("TICKTICK_CLIENT_ID", "B"), ("TICKTICK_CLIENT_SECRET", "S"),
      ("TICKTICK_REDIRECT_URI", "R2")] ++ [("TICKTICK_CLIENT_ID", "A")])
      "TICKTICK_CLIENT_ID" = some "B" := by
  have h1 : (strTruthy (envGet [("TICKTICK_CLIENT_ID", "A")] "TICKTICK_CLIENT_ID") &&
      strTruthy (envGet [("TICKTICK_CLIENT_ID", "A")] "TICKTICK_CLIENT_SECRET") &&
      strTruthy (envGet [("TICKTICK_CLIENT_ID", "A")] "TICKTICK_REDIRECT_URI")) = false := rfl
  have h2 : ([("TICKTICK_CLIENT_ID", "B"), ("TICKTICK_CLIENT_SECRET", "S"),
      ("TICKTICK_REDIRECT_URI", "R2")] : EnvMap).isEmpty = false := rfl
  refine ⟨h1, h2, ?_⟩
  exact (C3_env_wins_only_without_dotenv_load.2.2 [("TICKTICK_CLIENT_ID", "A")]
      [("TICKTICK_CLIENT_ID", "B"), ("TICKTICK_CLIENT_SECRET", "S"),
       ("TICKTICK_REDIRECT_URI", "R2")] (fun _ => none) 0 none
      { clientId := "B", clientSecret := "S", redirectUri := "R2",
        accessToken := none, userId := none, username := none, password := none,
        isCloudDeployment := false,
        unofficialTokenCachePath := "~/.config/ticktick-mcp/.token-oauth",
        writtenCloudToken := none }
      h1 h2 rfl).2.2.2 "TICKTICK_CLIENT_ID" "B" rfl

/-! ## C5: fatal vs. degraded startup -/

/-- C5: if any of the three OAuth variables is still missing after the
dotenv fallback the process exits non-zero (`sys.exit(1)`); if they are set
but `USERNAME`/`PASSWORD` are not, startup succeeds with both unset, and the
pin tool then returns a structured error object mentioning "not configured"
without issuing any request, instead of raising. -/
theorem C5_fatal_oauth_degraded_unofficial :
    (∀ (env : EnvMap) (dotenvFile : Option EnvMap) (pj : String → Option Rec)
        (now : Int) (cache : Option Rec),
      (strTruthy (envGet env "TICKTICK_CLIENT_ID") &&
       strTruthy (envGet env "TICKTICK_CLIENT_SECRET") &&
       strTruthy (envGet env "TICKTICK_REDIRECT_URI")) = false →
      (∀ d, dotenvFile = some d →
        (strTruthy (envGet (d ++ env) "TICKTICK_CLIENT_ID") &&
         strTruthy (envGet (d ++ env) "TICKTICK_CLIENT_SECRET") &&
         strTruthy (envGet (d ++ env) "TICKTICK_REDIRECT_URI")) = false) →
      _load_env_vars env dotenvFile pj now cache = .error .exitOne) ∧
    (∀ (env : EnvMap) (d : Option EnvMap) (pj : String → Option Rec)
        (now : Int) (cache : Option Rec),
      (strTruthy (envGet env "TICKTICK_CLIENT_ID") &&
       strTruthy (envGet env "TICKTICK_CLIENT_SECRET") &&
       strTruthy (envGet env "TICKTICK_REDIRECT_URI")) = true →
      envGet env "TICKTICK_OAUTH_TOKEN" = none →
      envGet env "TICKTICK_USERNAME" = none →
      envGet env "TICKTICK_PASSWORD" = none →
      (_load_env_vars env d pj now cache).isOk = true ∧
      (_load_env_vars env d pj now cache).map Config.username = .ok none ∧
      (_load_env_vars env d pj now cache).map Config.password = .ok none) ∧
    (∀ (task_id now : String) (fetched : Option Rec) (batch : Val),
      (unofficial_pin_task none task_id fetched now batch).sent = none ∧
      rget (unofficial_pin_task none task_id fetched now batch).response "error"
        = some (vStr "Unofficial API not configured. Check TICKTICK_USERNAME and TICKTICK_PASSWORD.") ∧
      containsSeq "not configured".data
        "Unofficial API not configured. Check TICKTICK_USERNAME and TICKTICK_PASSWORD.".data
        = true) := by
  refine ⟨?_, ?_, ?_⟩
  · intro env dotenvFile pj now cache h1 h2
    cases dotenvFile with
    | none => simp [_load_env_vars, h1]
    | some d =>
        have h2' := h2 d rfl
        by_cases he : d.isEmpty = true
        · simp [_load_env_vars, h1, he]
        · simp only [Bool.not_eq_true] at he
          simp [_load_env_vars, _load_env_vars_resolved, h1, h2', he]
  · intro env d pj now cache h hoauth husr hpwd
    refine ⟨?_, ?_, ?_⟩ <;>
      (simp only [_load_env_vars, h, Bool.not_true, Bool.false_eq_true, if_false]
       simp only [_load_env_vars_resolved, h, Bool.not_true, Bool.false_eq_true,
         if_false, hoauth]
       simp [strTruthy, husr, hpwd, Except.map, Except.isOk, Except.toBool])
  · intro task_id now fetched batch
    exact ⟨rfl, rfl, by decide⟩

/-- C5 (witness). -/
theorem C5_fatal_oauth_degraded_unofficial_witness :
    _load_env_vars [] none (fun _ => none) 0 none = .error .exitOne ∧
    (_load_env_vars [("TICKTICK_CLIENT_ID", "a"), ("TICKTICK_CLIENT_SECRET", "b"),
        ("TICKTICK_REDIRECT_URI", "c")] none (fun _ => none) 0 none).isOk = true ∧
    (_load_env_vars [("TICKTICK_CLIENT_ID", "a"), ("TICKTICK_CLIENT_SECRET", "b"),
        ("TICKTICK_REDIRECT_URI", "c")] none (fun _ => none) 0 none).map Config.username
      = .ok none ∧
    (unofficial_pin_task none "t1" none "NOW" vNull).sent = none := by
  refine ⟨?_, ?_, ?_, ?_⟩
  · exact C5_fatal_oauth_degraded_unofficial.1 [] none (fun _ => none) 0 none rfl
      (fun d h => nomatch h)
  · exact (C5_fatal_oauth_degraded_unofficial.2.1
      [("TICKTICK_CLIENT_ID", "a"), ("TICKTICK_CLIENT_SECRET", "b"),
       ("TICKTICK_REDIRECT_URI", "c")] none (fun _ => none) 0 none rfl rfl rfl rfl).1
  · exact (C5_fatal_oauth_degraded_unofficial.2.1
      [("TICKTICK_CLIENT_ID", "a"), ("TICKTICK_CLIENT_SECRET", "b"),
       ("TICKTICK_REDIRECT_URI", "c")] none (fun _ => none) 0 none rfl rfl rfl rfl).2.1
  · exact (C5_fatal_oauth_degraded_unofficial.2.2 "t1" "NOW" none vNull).1

/-! ## C9: cloud-mode token cache rerouting -/

/-- C9: when `TICKTICK_OAUTH_TOKEN` is present (non-empty) at startup and
parses to a token object whose `expires_in` is the integer `n`, the
unofficial-session token cache path becomes `/tmp/.token-oauth` (not the
user-config default), cloud mode is flagged, and the token JSON written to
the cache is the blob with an absolute `expire_time` field equal to
`now + n`. -/
theorem C9_cloud_reroute_and_absolute_expiry (env : EnvMap) (d : Option EnvMap)
    (pj : String → Option Rec) (now : Int) (cache : Option Rec)
    (s : String) (tokenData : Rec) (n : Int)
    (h3 : (strTruthy (envGet env "TICKTICK_CLIENT_ID") &&
           strTruthy (envGet env "TICKTICK_CLIENT_SECRET") &&
           strTruthy (envGet env "TICKTICK_REDIRECT_URI")) = true)
    (hs : envGet env "TICKTICK_OAUTH_TOKEN" = some s)
    (hsne : s ≠ "")
    (hp : pj s = some tokenData)
    (hn : rget tokenData "expires_in" = some (vInt n)) :
    (_load_env_vars env d pj now cache).map Config.isCloudDeployment = .ok true ∧
    (_load_env_vars env d pj now cache).map Config.unofficialTokenCachePath
      = .ok "/tmp/.token-oauth" ∧
    (_load_env_vars env d pj now cache).map Config.writtenCloudToken
      = .ok (some (rset tokenData "expire_time" (vInt (now + n)))) ∧
    rget (rset tokenData "expire_time" (vInt (now + n))) "expire_time"
      = some (vInt (now + n)) := by
  refine ⟨?_, ?_, ?_, ?_⟩ <;>
    (try simp only [_load_env_vars, h3, Bool.not_true, Bool.false_eq_true, if_false]
     try simp only [_load_env_vars_resolved, h3, Bool.not_true, Bool.false_eq_true,
       if_false, hs]
     simp [strTruthy, hsne, hp, hn, rget_rset, Except.map])

/-- C9 (witness). -/
theorem C9_cloud_reroute_and_absolute_expiry_witness :
    (strTruthy (envGet [("TICKTICK_CLIENT_ID", "a"), ("TICKTICK_CLIENT_SECRET", "b"),
        ("TICKTICK_REDIRECT_URI", "c"), ("TICKTICK_OAUTH_TOKEN", "{tok}")]
        "TICKTICK_CLIENT_ID") &&
     strTruthy (envGet [("TICKTICK_CLIENT_ID", "a"), ("TICKTICK_CLIENT_SECRET", "b"),
        ("TICKTICK_REDIRECT_URI", "c"), ("TICKTICK_OAUTH_TOKEN", "{tok}")]
        "TICKTICK_CLIENT_SECRET") &&
     strTruthy (envGet [("TICKTICK_CLIENT_ID", "a"), ("TICKTICK_CLIENT_SECRET", "b"),
        ("TICKTICK_REDIRECT_URI", "c"), ("TICKTICK_OAUTH_TOKEN", "{tok}")]
        "TICKTICK_REDIRECT_URI")) = true ∧
    ("{tok}" : String) ≠ "" ∧
    ((_load_env_vars
        [("TICKTICK_CLIENT_ID", "a"), ("TICKTICK_CLIENT_SECRET", "b"),
         ("TICKTICK_REDIRECT_URI", "c"), ("TICKTICK_OAUTH_TOKEN", "{tok}")]
        none
        (fun j => if j = "{tok}"
                  then some [("access_token", vStr "tok"), ("expires_in", vInt 100)]
                  else none)
        1000 none).map Config.unofficialTokenCachePath = .ok "/tmp/.token-oauth" ∧
      (_load_env_vars
        [("TICKTICK_CLIENT_ID", "a"), ("TICKTICK_CLIENT_SECRET", "b"),
         ("TICKTICK_REDIRECT_URI", "c"), ("TICKTICK_OAUTH_TOKEN", "{tok}")]
        none
        (fun j => if j = "{tok}"
                  then some [("access_token", vStr "tok"), ("expires_in", vInt 100)]
                  else none)
        1000 none).map Config.writtenCloudToken
        = .ok (some (rset [("access_token", vStr "tok"), ("expires_in", vInt 100)]
            "expire_time" (vInt (1000 + 100)))) ∧
      rget (rset [("access_token", vStr "tok"), ("expires_in", vInt 100)]
          "expire_time" (vInt (1000 + 100))) "expire_time" = some (vInt (1000 + 100))) := by
  refine ⟨rfl, by decide, ?_⟩
  have h := C9_cloud_reroute_and_absolute_expiry
    [("TICKTICK_CLIENT_ID", "a"), ("TICKTICK_CLIENT_SECRET", "b"),
     ("TICKTICK_REDIRECT_URI", "c"), ("TICKTICK_OAUTH_TOKEN", "{tok}")]
    none
    (fun j => if j = "{tok}"
              then some [("access_token", vStr "tok"), ("expires_in", vInt 100)]
              else none)
    1000 none "{tok}" [("access_token", vStr "tok"), ("expires_in", vInt 100)] 100
    rfl rfl (by decide) (by simp) rfl
  exact ⟨h.2.1, h.2.2.1, h.2.2.2⟩

/-! ## C4: login retry behaviour -/

/-- C4 (counterexample): a transient failure (attempt 0 fails, attempt 1
would succeed) defeats the source's `login`: it consumes exactly one attempt
and raises the typed 401 error, whereas the retry-with-backoff procedure the
claim describes would succeed on its second attempt. -/
theorem C4_login_no_retry_on_transient_failure :
    (login (fun n => decide (1 ≤ n))).2 = 1 ∧
    (login (fun n => decide (1 ≤ n))).1 = .error ⟨401, "Login failed"⟩ ∧
    (spec_login_with_retry (fun n => decide (1 ≤ n))).1 = .ok true ∧
    (spec_login_with_retry (fun n => decide (1 ≤ n))).2 = 2 :=
  ⟨rfl, rfl, rfl, rfl⟩

/-- C4 (amended): `login` makes exactly one attempt — no backoff, no retry —
and raises a typed 401 "Login failed" error when that attempt fails; and the
failure is not terminal for the process: `config.get_unofficial_client`
leaves `_unofficial_client_initialized` unset after a failed login, so the
next call runs a fresh login (which can succeed).  Nothing else is ever
retried. -/
theorem C4_login_single_attempt_not_terminal :
    (∀ attempts, (login attempts).2 = 1) ∧
    (∀ attempts, attempts 0 = false →
      (login attempts).1 = .error ⟨401, "Login failed"⟩) ∧
    get_unofficial_client_step true false ⟨false, false, false⟩
      = (none, ⟨true, false, false⟩) ∧
    get_unofficial_client_step true true ⟨true, false, false⟩
      = (some true, ⟨true, true, true⟩) := by
  refine ⟨?_, ?_, rfl, rfl⟩
  · intro attempts
    unfold login
    by_cases h : attempts 0 = true <;> simp [h]
  · intro attempts h
    simp [login, h]

/-- C4 (witness). -/
theorem C4_login_single_attempt_not_terminal_witness :
    ((fun _ : Nat => false) 0 = false) ∧
    (login (fun _ => false)).2 = 1 ∧
    (login (fun _ => false)).1 = .error ⟨401, "Login failed"⟩ :=
  ⟨rfl, C4_login_single_attempt_not_terminal.1 (fun _ => false),
   C4_login_single_attempt_not_terminal.2.1 (fun _ => false) rfl⟩

/-! ## C6: fan-out with partial failure -/

theorem get_all_tasks_loop_ok (fetch : String → Except TickTickAPIError Rec)
    (projs : List Rec)
    (hid : ∀ p ∈ projs, ∃ pid, rget p "id" = some (vStr pid)) :
    get_all_tasks_loop fetch (projs.map vObj) =
      .ok (projs.flatMap fun p =>
        match rget p "id" with
        | some (vStr pid) =>
            (match fetch pid with
             | .ok d => tasks_field d
             | .error _ => [])
        | _ => []) := by
  induction projs with
  | nil => rfl
  | cons p ps ih =>
      obtain ⟨pid, hpid⟩ := hid p (List.mem_cons_self p ps)
      have ih' := ih (fun q hq => hid q (List.mem_cons_of_mem p hq))
      simp only [List.map_cons, get_all_tasks_loop, hpid, ih', List.flatMap_cons]
      cases fetch pid <;> simp [Except.map]

/-- C6: `get_all_tasks` returns the Inbox tasks (when a user id is
configured and that fetch succeeds; a failed Inbox fetch contributes
nothing) followed by the tasks of every project whose fetch succeeded, in
order; a project whose fetch raises `TickTickAPIError` contributes nothing
and the call itself still returns `.ok`. -/
theorem C6_get_all_tasks_partial_failure (user_id : Option String)
    (fetch : String → Except TickTickAPIError Rec) (projs : List Rec)
    (hid : ∀ p ∈ projs, ∃ pid, rget p "id" = some (vStr pid)) :
    get_all_tasks user_id fetch (.ok (projs.map vObj)) =
      .ok ((match inbox_id user_id with
            | some iid =>
                (match fetch iid with
                 | .ok d => tasks_field d
                 | .error _ => [])
            | none => []) ++
           projs.flatMap fun p =>
             match rget p "id" with
             | some (vStr pid) =>
                 (match fetch pid with
                  | .ok d => tasks_field d
                  | .error _ => [])
             | _ => []) := by
  simp only [get_all_tasks]
  rw [get_all_tasks_loop_ok fetch projs hid]
  rfl

/-- C6 (witness): three projects, the second fetch returning a 500; the
tasks of the first and third are still returned and the call does not
raise. -/
theorem C6_get_all_tasks_partial_failure_witness :
    (∀ p ∈ [[("id", vStr "p1")], [("id", vStr "p2")], [("id", vStr "p3")]],
      ∃ pid, rget p "id" = some (vStr pid)) ∧
    get_all_tasks none
      (fun pid => if pid = "p2" then .error ⟨500, "server error"⟩
                  else if pid = "p1" then .ok [("tasks", vList [vStr "t1"])]
                  else if pid = "p3" then .ok [("tasks", vList [vStr "t3"])]
                  else .ok [])
      (.ok ([[("id", vStr "p1")], [("id", vStr "p2")], [("id", vStr "p3")]].map vObj))
      = .ok [vStr "t1", vStr "t3"] := by
  have hid : ∀ p ∈ [[("id", vStr "p1")], [("id", vStr "p2")], [("id", vStr "p3")]],
      ∃ pid, rget p "id" = some (vStr pid) := by
    rintro p hp
    simp only [List.mem_cons, List.not_mem_nil, or_false] at hp
    rcases hp with rfl | rfl | rfl
    · exact ⟨"p1", rfl⟩
    · exact ⟨"p2", rfl⟩
    · exact ⟨"p3", rfl⟩
  refine ⟨hid, ?_⟩
  exact (C6_get_all_tasks_partial_failure none
    (fun pid => if pid = "p2" then .error ⟨500, "server error"⟩
                else if pid = "p1" then .ok [("tasks", vList [vStr "t1"])]
                else if pid = "p3" then .ok [("tasks", vList [vStr "t3"])]
                else .ok [])
    [[("id", vStr "p1")], [("id", vStr "p2")], [("id", vStr "p3")]] hid).trans (by rfl)

/-! ## String-order lemmas for the ERULE claim -/

theorem strLtB_cons (x y : Char) (as bs : List Char) :
    strLtB (x :: as) (y :: bs)
      = if x < y then true else if y < x then false else strLtB as bs := rfl

theorem strLtB_cons_same (c : Char) (as bs : List Char) :
    strLtB (c :: as) (c :: bs) = strLtB as bs := by
  rw [strLtB_cons, if_neg (lt_irrefl c), if_neg (lt_irrefl c)]

theorem strLtB_cons_congr (x y : Char) {as bs as' bs' : List Char}
    (h : strLtB as bs = strLtB as' bs') :
    strLtB (x :: as) (y :: bs) = strLtB (x :: as') (y :: bs') := by
  rw [strLtB_cons, strLtB_cons, h]

theorem isDashedDate_shape {s : String} (h : isDashedDate s = true) :
    ∃ y1 y2 y3 y4 m1 m2 d1 d2 : Char,
      s.data = [y1, y2, y3, y4, '-', m1, m2, '-', d1, d2] ∧
      y1.isDigit = true ∧ y2.isDigit = true ∧ y3.isDigit = true ∧ y4.isDigit = true ∧
      m1.isDigit = true ∧ m2.isDigit = true ∧ d1.isDigit = true ∧ d2.isDigit = true := by
  obtain ⟨l⟩ := s
  match l with
  | [y1, y2, y3, y4, h1, m1, m2, h2, d1, d2] =>
      simp only [isDashedDate, Bool.and_eq_true, beq_iff_eq] at h
      obtain ⟨⟨⟨⟨⟨⟨⟨⟨⟨hy1, hy2⟩, hy3⟩, hy4⟩, hh1⟩, hm1⟩, hm2⟩, hh2⟩, hd1⟩, hd2⟩ := h
      subst hh1
      subst hh2
      exact ⟨y1, y2, y3, y4, m1, m2, d1, d2, rfl,
        hy1, hy2, hy3, hy4, hm1, hm2, hd1, hd2⟩
  | [] => simp [isDashedDate] at h
  | [a] => simp [isDashedDate] at h
  | [a, b] => simp [isDashedDate] at h
  | [a, b, c] => simp [isDashedDate] at h
  | [a, b, c, d] => simp [isDashedDate] at h
  | [a, b, c, d, e] => simp [isDashedDate] at h
  | [a, b, c, d, e, f] => simp [isDashedDate] at h
  | [a, b, c, d, e, f, g] => simp [isDashedDate] at h
  | [a, b, c, d, e, f, g, i] => simp [isDashedDate] at h
  | [a, b, c, d, e, f, g, i, j] => simp [isDashedDate] at h
  | a :: b :: c :: d :: e :: f :: g :: i :: j :: k :: m :: rest =>
      simp [isDashedDate] at h

theorem char_digit_bounds {c : Char} (h : c.isDigit = true) :
    48 ≤ c.toNat ∧ c.toNat ≤ 57 := by
  simp [Char.isDigit] at h
  exact ⟨h.1, h.2⟩

theorem digit_ne_dash {c : Char} (h : c.isDigit = true) : (c != '-') = true := by
  rw [bne_iff_ne]
  rintro rfl
  exact absurd h (by decide)

theorem digitsVal_lt_pow (cs : List Char) (h : ∀ c ∈ cs, c.isDigit = true) :
    digitsVal cs < 10 ^ cs.length := by
  induction cs with
  | nil => simp [digitsVal]
  | cons c cs ih =>
      have hc := char_digit_bounds (h c (List.mem_cons_self c cs))
      have h9 : c.toNat - 48 ≤ 9 := by omega
      have ih' := ih (fun x hx => h x (List.mem_cons_of_mem _ hx))
      have step : digitsVal (c :: cs) = (c.toNat - 48) * 10 ^ cs.length + digitsVal cs := rfl
      rw [step]
      have hlen : (c :: cs).length = cs.length + 1 := rfl
      rw [hlen]
      calc (c.toNat - 48) * 10 ^ cs.length + digitsVal cs
          ≤ 9 * 10 ^ cs.length + digitsVal cs :=
            Nat.add_le_add_right (Nat.mul_le_mul_right _ h9) _
        _ < 9 * 10 ^ cs.length + 10 ^ cs.length := Nat.add_lt_add_left ih' _
        _ = 10 ^ (cs.length + 1) := by ring

theorem digit_block_lt {dx dy X Y n : Nat} (hd : dx < dy) (hX : X < 10 ^ n) :
    dx * 10 ^ n + X < dy * 10 ^ n + Y := by
  calc dx * 10 ^ n + X < dx * 10 ^ n + 10 ^ n := Nat.add_lt_add_left hX _
    _ = (dx + 1) * 10 ^ n := by ring
    _ ≤ dy * 10 ^ n := Nat.mul_le_mul_right _ hd
    _ ≤ dy * 10 ^ n + Y := Nat.le_add_right _ _

theorem strLtB_digits : ∀ (as bs : List Char), as.length = bs.length →
    (∀ c ∈ as, c.isDigit = true) → (∀ c ∈ bs, c.isDigit = true) →
    strLtB as bs = decide (digitsVal as < digitsVal bs) := by
  intro as
  induction as with
  | nil =>
      intro bs hlen _ _
      cases bs with
      | nil => simp [strLtB, digitsVal]
      | cons y ys => simp at hlen
  | cons x xs ih =>
      intro bs hlen ha hb
      cases bs with
      | nil => simp at hlen
      | cons y ys =>
          have hlen' : xs.length = ys.length := by simpa using hlen
          have hx := char_digit_bounds (ha x (List.mem_cons_self x xs))
          have hy := char_digit_bounds (hb y (List.mem_cons_self y ys))
          have ha' : ∀ c ∈ xs, c.isDigit = true :=
            fun c hc => ha c (List.mem_cons_of_mem _ hc)
          have hb' : ∀ c ∈ ys, c.isDigit = true :=
            fun c hc => hb c (List.mem_cons_of_mem _ hc)
          have hXa : digitsVal xs < 10 ^ xs.length := digitsVal_lt_pow xs ha'
          have hXb : digitsVal ys < 10 ^ ys.length := digitsVal_lt_pow ys hb'
          have stepa : digitsVal (x :: xs) = (x.toNat - 48) * 10 ^ xs.length + digitsVal xs := rfl
          have stepb : digitsVal (y :: ys) = (y.toNat - 48) * 10 ^ ys.length + digitsVal ys := rfl
          rw [strLtB_cons, stepa, stepb, hlen']
          rw [hlen'] at hXa
          rcases lt_trichotomy x y with hxy | hxy | hxy
          · have hn : x.toNat < y.toNat := hxy
            have hd : x.toNat - 48 < y.toNat - 48 := by omega
            rw [if_pos hxy]
            exact (decide_eq_true (digit_block_lt hd hXa)).symm
          · subst hxy
            rw [if_neg (lt_irrefl x), if_neg (lt_irrefl x), ih ys hlen' ha' hb']
            exact decide_eq_decide.mpr Nat.add_lt_add_iff_left.symm
          · have hn : y.toNat < x.toNat := hxy
            have hd : y.toNat - 48 < x.toNat - 48 := by omega
            rw [if_neg (asymm hxy), if_pos hxy]
            refine (decide_eq_false ?_).symm
            intro hcon
            exact absurd hcon (Nat.not_lt.mpr (le_of_lt (digit_block_lt hd hXb)))

theorem stripDashes_shape {s : String} {y1 y2 y3 y4 m1 m2 d1 d2 : Char}
    (hs : s.data = [y1, y2, y3, y4, '-', m1, m2, '-', d1, d2])
    (hy1 : y1.isDigit = true) (hy2 : y2.isDigit = true) (hy3 : y3.isDigit = true)
    (hy4 : y4.isDigit = true) (hm1 : m1.isDigit = true) (hm2 : m2.isDigit = true)
    (hd1 : d1.isDigit = true) (hd2 : d2.isDigit = true) :
    (stripDashes s).data = [y1, y2, y3, y4, m1, m2, d1, d2] := by
  show (s.data.filter (fun c => c != '-')) = _
  rw [hs]
  simp only [List.filter_cons, digit_ne_dash hy1, digit_ne_dash hy2, digit_ne_dash hy3,
    digit_ne_dash hy4, digit_ne_dash hm1, digit_ne_dash hm2, digit_ne_dash hd1,
    digit_ne_dash hd2, if_true, List.filter_nil]
  norm_num

theorem strLtB_dashed_strip (y1 y2 y3 y4 m1 m2 d1 d2 z1 z2 z3 z4 n1 n2 e1 e2 : Char) :
    strLtB [y1, y2, y3, y4, '-', m1, m2, '-', d1, d2]
           [z1, z2, z3, z4, '-', n1, n2, '-', e1, e2]
      = strLtB [y1, y2, y3, y4, m1, m2, d1, d2] [z1, z2, z3, z4, n1, n2, e1, e2] := by
  apply strLtB_cons_congr
  apply strLtB_cons_congr
  apply strLtB_cons_congr
  apply strLtB_cons_congr
  rw [strLtB_cons_same]
  apply strLtB_cons_congr
  apply strLtB_cons_congr
  rw [strLtB_cons_same]

theorem dateKey_of_shape {s : String} {y1 y2 y3 y4 m1 m2 d1 d2 : Char}
    (hs : s.data = [y1, y2, y3, y4, '-', m1, m2, '-', d1, d2])
    (hy1 : y1.isDigit = true) (hy2 : y2.isDigit = true) (hy3 : y3.isDigit = true)
    (hy4 : y4.isDigit = true) (hm1 : m1.isDigit = true) (hm2 : m2.isDigit = true)
    (hd1 : d1.isDigit = true) (hd2 : d2.isDigit = true) :
    dateKey s = digitsVal [y1, y2, y3, y4, m1, m2, d1, d2] := by
  unfold dateKey
  rw [stripDashes_shape hs hy1 hy2 hy3 hy4 hm1 hm2 hd1 hd2]

theorem strLtB_dates {a b : String} (ha : isDashedDate a = true)
    (hb : isDashedDate b = true) :
    strLtB a.data b.data = decide (dateKey a < dateKey b) := by
  obtain ⟨y1, y2, y3, y4, m1, m2, d1, d2, hsa, hy1, hy2, hy3, hy4, hm1, hm2, hd1, hd2⟩ :=
    isDashedDate_shape ha
  obtain ⟨z1, z2, z3, z4, n1, n2, e1, e2, hsb, hz1, hz2, hz3, hz4, hn1, hn2, he1, he2⟩ :=
    isDashedDate_shape hb
  have hda : ∀ c ∈ [y1, y2, y3, y4, m1, m2, d1, d2], c.isDigit = true := by
    intro c hc
    simp only [List.mem_cons, List.not_mem_nil, or_false] at hc
    rcases hc with rfl | rfl | rfl | rfl | rfl | rfl | rfl | rfl <;> assumption
  have hdb : ∀ c ∈ [z1, z2, z3, z4, n1, n2, e1, e2], c.isDigit = true := by
    intro c hc
    simp only [List.mem_cons, List.not_mem_nil, or_false] at hc
    rcases hc with rfl | rfl | rfl | rfl | rfl | rfl | rfl | rfl <;> assumption
  rw [hsa, hsb, strLtB_dashed_strip,
    strLtB_digits [y1, y2, y3, y4, m1, m2, d1, d2] [z1, z2, z3, z4, n1, n2, e1, e2]
      (by rfl) hda hdb,
    dateKey_of_shape hsa hy1 hy2 hy3 hy4 hm1 hm2 hd1 hd2,
    dateKey_of_shape hsb hz1 hz2 hz3 hz4 hn1 hn2 he1 he2]

theorem strLeB_strip_dates {a b : String} (ha : isDashedDate a = true)
    (hb : isDashedDate b = true) :
    strLeB (stripDashes a).data (stripDashes b).data = decide (dateKey a ≤ dateKey b) := by
  obtain ⟨y1, y2, y3, y4, m1, m2, d1, d2, hsa, hy1, hy2, hy3, hy4, hm1, hm2, hd1, hd2⟩ :=
    isDashedDate_shape ha
  obtain ⟨z1, z2, z3, z4, n1, n2, e1, e2, hsb, hz1, hz2, hz3, hz4, hn1, hn2, he1, he2⟩ :=
    isDashedDate_shape hb
  have hda : ∀ c ∈ [y1, y2, y3, y4, m1, m2, d1, d2], c.isDigit = true := by
    intro c hc
    simp only [List.mem_cons, List.not_mem_nil, or_false] at hc
    rcases hc with rfl | rfl | rfl | rfl | rfl | rfl | rfl | rfl <;> assumption
  have hdb : ∀ c ∈ [z1, z2, z3, z4, n1, n2, e1, e2], c.isDigit = true := by
    intro c hc
    simp only [List.mem_cons, List.not_mem_nil, or_false] at hc
    rcases hc with rfl | rfl | rfl | rfl | rfl | rfl | rfl | rfl <;> assumption
  unfold strLeB
  rw [stripDashes_shape hsa hy1 hy2 hy3 hy4 hm1 hm2 hd1 hd2,
    stripDashes_shape hsb hz1 hz2 hz3 hz4 hn1 hn2 he1 he2,
    strLtB_digits [z1, z2, z3, z4, n1, n2, e1, e2] [y1, y2, y3, y4, m1, m2, d1, d2]
      (by rfl) hdb hda,
    dateKey_of_shape hsa hy1 hy2 hy3 hy4 hm1 hm2 hd1 hd2,
    dateKey_of_shape hsb hz1 hz2 hz3 hz4 hn1 hn2 he1 he2,
    ← decide_not]
  exact decide_eq_decide.mpr Nat.not_lt

theorem mem_insertLe {α : Type} (le : α → α → Bool) (x : α) :
    ∀ (l : List α) (a : α), a ∈ insertLe le x l ↔ a = x ∨ a ∈ l := by
  intro l
  induction l with
  | nil => intro a; simp [insertLe]
  | cons y ys ih =>
      intro a
      by_cases h : le x y = true
      · simp [insertLe, h]
      · simp only [insertLe, h, Bool.false_eq_true, if_false, List.mem_cons, ih]
        tauto

theorem mem_sortLe {α : Type} (le : α → α → Bool) :
    ∀ (l : List α) (a : α), a ∈ sortLe le l ↔ a ∈ l := by
  intro l
  induction l with
  | nil => intro a; simp [sortLe]
  | cons x xs ih =>
      intro a
      simp [sortLe, mem_insertLe, ih]

theorem map_insertLe {α β : Type} (f : α → β) (le : α → α → Bool)
    (le' : β → β → Bool) (x : α) :
    ∀ (l : List α), (∀ b ∈ l, le x b = le' (f x) (f b)) →
      (insertLe le x l).map f = insertLe le' (f x) (l.map f) := by
  intro l
  induction l with
  | nil => intro _; rfl
  | cons y ys ih =>
      intro h
      have hy := h y (List.mem_cons_self y ys)
      by_cases hxy : le x y = true
      · simp [insertLe, hxy, ← hy]
      · simp only [insertLe, hxy, Bool.false_eq_true, if_false, List.map_cons, ← hy,
          ih (fun b hb => h b (List.mem_cons_of_mem _ hb))]

theorem map_sortLe {α β : Type} (f : α → β) (le : α → α → Bool)
    (le' : β → β → Bool) :
    ∀ (l : List α), (∀ a ∈ l, ∀ b ∈ l, le a b = le' (f a) (f b)) →
      (sortLe le l).map f = sortLe le' (l.map f) := by
  intro l
  induction l with
  | nil => intro _; rfl
  | cons x xs ih =>
      intro h
      have hrec := ih (fun a ha b hb =>
        h a (List.mem_cons_of_mem _ ha) b (List.mem_cons_of_mem _ hb))
      have hins : ∀ b ∈ sortLe le xs, le x b = le' (f x) (f b) := by
        intro b hb
        exact h x (List.mem_cons_self x xs) b
          (List.mem_cons_of_mem _ ((mem_sortLe le xs b).mp hb))
      calc (sortLe le (x :: xs)).map f
          = (insertLe le x (sortLe le xs)).map f := rfl
        _ = insertLe le' (f x) ((sortLe le xs).map f) := map_insertLe f le le' x _ hins
        _ = insertLe le' (f x) (sortLe le' (xs.map f)) := by rw [hrec]
        _ = sortLe le' ((x :: xs).map f) := rfl

theorem pyMinStr_spec :
    ∀ (ds : List String) (d : String), isDashedDate d = true →
      (∀ x ∈ ds, isDashedDate x = true) →
      isDashedDate (pyMinStr d ds) = true ∧
      (pyMinStr d ds = d ∨ pyMinStr d ds ∈ ds) ∧
      dateKey (pyMinStr d ds) ≤ dateKey d ∧
      ∀ x ∈ ds, dateKey (pyMinStr d ds) ≤ dateKey x := by
  intro ds
  induction ds with
  | nil =>
      intro d hd _
      exact ⟨hd, Or.inl rfl, le_refl _, by simp⟩
  | cons x ds ih =>
      intro d hd hds
      have hx := hds x (List.mem_cons_self x ds)
      have hds' : ∀ y ∈ ds, isDashedDate y = true :=
        fun y hy => hds y (List.mem_cons_of_mem _ hy)
      by_cases hlt : strLtB x.data d.data = true
      · have hstep : pyMinStr d (x :: ds) = pyMinStr x ds := by
          simp [pyMinStr, hlt]
        have hkey : dateKey x < dateKey d := by
          have := (strLtB_dates hx hd) ▸ hlt
          exact of_decide_eq_true this
        obtain ⟨ha, hmem, hled, hall⟩ := ih x hx hds'
        rw [hstep]
        refine ⟨ha, ?_, le_trans hled (le_of_lt hkey), ?_⟩
        · rcases hmem with h | h
          · exact Or.inr (by rw [h]; exact List.mem_cons_self x ds)
          · exact Or.inr (List.mem_cons_of_mem _ h)
        · intro y hy
          rcases List.mem_cons.mp hy with rfl | hy'
          · exact hled
          · exact hall y hy'
      · have hstep : pyMinStr d (x :: ds) = pyMinStr d ds := by
          simp [pyMinStr, hlt]
        have hkey : dateKey d ≤ dateKey x := by
          have hfalse : decide (dateKey x < dateKey d) = false := by
            rw [← strLtB_dates hx hd]
            exact Bool.not_eq_true _ ▸ hlt
          exact Nat.not_lt.mp (of_decide_eq_false hfalse)
        obtain ⟨ha, hmem, hled, hall⟩ := ih d hd hds'
        rw [hstep]
        refine ⟨ha, ?_, hled, ?_⟩
        · rcases hmem with h | h
          · exact Or.inl h
          · exact Or.inr (List.mem_cons_of_mem _ h)
        · intro y hy
          rcases List.mem_cons.mp hy with rfl | hy'
          · exact le_trans hled hkey
          · exact hall y hy'

theorem erule_flag_eq_spec (dates : List String)
    (h : ∀ d ∈ dates, isDashedDate d = true) :
    erule_flag dates = spec_erule_flag dates := by
  unfold erule_flag spec_erule_flag pySorted specSortedByDate
  have hcomm :
      (sortLe (fun a b => decide (dateKey a ≤ dateKey b)) dates).map stripDashes
        = sortLe (fun a b => strLeB a.data b.data) (dates.map stripDashes) := by
    apply map_sortLe
    intro a ha b hb
    exact (strLeB_strip_dates (h a ha) (h b hb)).symm
  rw [hcomm]

theorem erule_fields_of_rset (base : Rec) (d : String) (ds : List String)
    (hval : ∀ x ∈ d :: ds, isDashedDate x = true) :
    rget (rset (rset (rset base "repeatFlag" (vStr (erule_flag (d :: ds))))
        "repeatFirstDate" (vStr (pyMinStr d ds ++ "T05:00:00.000+0000")))
        "repeatFrom" (vStr "0")) "repeatFlag"
      = some (vStr (spec_erule_flag (d :: ds))) ∧
    (∃ m, (m = d ∨ m ∈ ds) ∧ (∀ x ∈ d :: ds, dateKey m ≤ dateKey x) ∧
      rget (rset (rset (rset base "repeatFlag" (vStr (erule_flag (d :: ds))))
          "repeatFirstDate" (vStr (pyMinStr d ds ++ "T05:00:00.000+0000")))
          "repeatFrom" (vStr "0")) "repeatFirstDate"
        = some (vStr (m ++ "T05:00:00.000+0000"))) := by
  constructor
  · simp [rget_rset, erule_flag_eq_spec (d :: ds) hval]
  · obtain ⟨-, hmem, hled, hall⟩ :=
      pyMinStr_spec ds d (hval d (List.mem_cons_self d ds))
        (fun x hx => hval x (List.mem_cons_of_mem _ hx))
    refine ⟨pyMinStr d ds, hmem, ?_, by simp [rget_rset]⟩
    intro x hx
    rcases List.mem_cons.mp hx with rfl | hx'
    · exact hled
    · exact hall x hx'

/-! ## C2: ERULE construction from specific dates -/

set_option maxHeartbeats 2000000

/-- C2: for a non-empty list of `YYYY-MM-DD` dates, both
`unofficial_create_task` and `unofficial_update_task` set `repeatFlag` to
`"ERULE:NAME=CUSTOM;BYDATE="` followed by the dates sorted ascending
(chronologically), reformatted as `YYYYMMDD` and comma-joined, and set
`repeatFirstDate` to the chronologically earliest date suffixed with
`"T05:00:00.000+0000"`; a `repeat_flag` supplied in the same call is
ignored; and the concrete example from the spec evaluates to its exact
literals. -/
theorem C2_specific_dates_erule :
    (∀ (title project_id : String) (content desc start_date due_date : Option String)
       (priority : Int) (tags : Option (List String))
       (reminders : Option (List String)) (is_all_day : Bool)
       (repeat_flag repeat_from : Option String) (time_zone : String)
       (d : String) (ds : List String),
      (∀ x ∈ d :: ds, isDashedDate x = true) →
      ∀ task, unofficial_create_task_record title project_id content desc start_date
          due_date priority tags reminders is_all_day repeat_flag repeat_from
          (some (d :: ds)) time_zone = some task →
        rget task "repeatFlag" = some (vStr (spec_erule_flag (d :: ds))) ∧
        ∃ m, (m = d ∨ m ∈ ds) ∧ (∀ x ∈ d :: ds, dateKey m ≤ dateKey x) ∧
          rget task "repeatFirstDate" = some (vStr (m ++ "T05:00:00.000+0000"))) ∧
    (∀ (title project_id : String) (content desc start_date due_date : Option String)
       (priority : Int) (tags : Option (List String))
       (reminders : Option (List String)) (is_all_day : Bool)
       (rf1 rf2 repeat_from : Option String) (time_zone : String)
       (d : String) (ds : List String),
      unofficial_create_task_record title project_id content desc start_date
          due_date priority tags reminders is_all_day rf1 repeat_from
          (some (d :: ds)) time_zone
        = unofficial_create_task_record title project_id content desc start_date
          due_date priority tags reminders is_all_day rf2 repeat_from
          (some (d :: ds)) time_zone) ∧
    (∀ (task0 : Rec) (title content desc start_date due_date : Option String)
       (priority status : Option Int) (tags : Option (List String))
       (reminders : Option (List String)) (is_all_day : Option Bool)
       (repeat_flag repeat_from : Option String) (time_zone : String)
       (d : String) (ds : List String),
      (∀ x ∈ d :: ds, isDashedDate x = true) →
      ∀ task, unofficial_update_task_record task0 title content desc start_date
          due_date priority status tags reminders is_all_day repeat_flag repeat_from
          (some (d :: ds)) time_zone = some task →
        rget task "repeatFlag" = some (vStr (spec_erule_flag (d :: ds))) ∧
        ∃ m, (m = d ∨ m ∈ ds) ∧ (∀ x ∈ d :: ds, dateKey m ≤ dateKey x) ∧
          rget task "repeatFirstDate" = some (vStr (m ++ "T05:00:00.000+0000"))) ∧
    (∀ (task0 : Rec) (title content desc start_date due_date : Option String)
       (priority status : Option Int) (tags : Option (List String))
       (reminders : Option (List String)) (is_all_day : Option Bool)
       (rf1 rf2 repeat_from : Option String) (time_zone : String)
       (d : String) (ds : List String),
      unofficial_update_task_record task0 title content desc start_date
          due_date priority status tags reminders is_all_day rf1 repeat_from
          (some (d :: ds)) time_zone
        = unofficial_update_task_record task0 title content desc start_date
          due_date priority status tags reminders is_all_day rf2 repeat_from
          (some (d :: ds)) time_zone) ∧
    ((unofficial_create_task_record "Take medication" "abc123" none none none none 0
        none none true none none (some ["2026-02-10", "2026-02-05"])
        "America/New_York").map (fun r => rget r "repeatFlag")
      = some (some (vStr "ERULE:NAME=CUSTOM;BYDATE=20260205,20260210")) ∧
     (unofficial_create_task_record "Take medication" "abc123" none none none none 0
        none none true none none (some ["2026-02-10", "2026-02-05"])
        "America/New_York").map (fun r => rget r "repeatFirstDate")
      = some (some (vStr "2026-02-05T05:00:00.000+0000"))) := by
  refine ⟨?_, ?_, ?_, ?_, rfl, rfl⟩
  · intro title project_id content desc start_date due_date priority tags reminders
      is_all_day repeat_flag repeat_from time_zone d ds hval task htask
    simp only [unofficial_create_task_record] at htask
    rcases reminders with - | rs
    · obtain rfl := Option.some.inj htask
      exact erule_fields_of_rset _ d ds hval
    · rcases rs with - | ⟨r, rs'⟩
      · exact absurd htask (by simp)
      · obtain rfl := Option.some.inj htask
        exact erule_fields_of_rset _ d ds hval
  · intro title project_id content desc start_date due_date priority tags reminders
      is_all_day rf1 rf2 repeat_from time_zone d ds
    rcases reminders with - | rs
    · rfl
    · rcases rs with - | ⟨r, rs'⟩ <;> rfl
  · intro task0 title content desc start_date due_date priority status tags reminders
      is_all_day repeat_flag repeat_from time_zone d ds hval task htask
    simp only [unofficial_update_task_record] at htask
    rcases reminders with - | rs
    · obtain rfl := Option.some.inj htask
      exact erule_fields_of_rset _ d ds hval
    · rcases rs with - | ⟨r, rs'⟩
      · exact absurd htask (by simp)
      · obtain rfl := Option.some.inj htask
        exact erule_fields_of_rset _ d ds hval
  · intro task0 title content desc start_date due_date priority status tags reminders
      is_all_day rf1 rf2 repeat_from time_zone d ds
    rcases reminders with - | rs
    · rfl
    · rcases rs with - | ⟨r, rs'⟩ <;> rfl

/-- C2 (witness). -/
theorem C2_specific_dates_erule_witness :
    (∀ x ∈ ("2026-02-10" :: ["2026-02-05"]), isDashedDate x = true) ∧
    (unofficial_create_task_record "Take medication" "abc123" none none none none 0
        none none true none none (some ("2026-02-10" :: ["2026-02-05"]))
        "America/New_York").map (fun r => rget r "repeatFlag")
      = some (some (vStr (spec_erule_flag ("2026-02-10" :: ["2026-02-05"])))) := by
  have hval : ∀ x ∈ ("2026-02-10" :: ["2026-02-05"]), isDashedDate x = true := by decide
  refine ⟨hval, ?_⟩
  have h := (C2_specific_dates_erule.1 "Take medication" "abc123" none none none none 0
      none none true none none "America/New_York" "2026-02-10" ["2026-02-05"] hval _ rfl).1
  exact congrArg some h

/-! ## C10: `_format_date_for_ticktick` and idempotence -/

/-- C10 (counterexample): the function is not idempotent.  For the input
`"2026-01-31T21:00:00+00:09:21+0000"` (no `.000`, a `+` in the last six
characters) the early branch splits on `'+'` and keeps only the first two
pieces, producing `"2026-01-31T21:00:00.000+00:09:21"`.  Re-applying the
function to that output takes the parse branch (no sign occurs in its last
six characters), `fromisoformat` accepts the `+00:09:21` offset, and
`strftime('%z')` re-renders it without colons, yielding the different string
`"2026-01-31T21:00:00.000+000921"`. -/
theorem C10_format_date_not_idempotent :
    _format_date_for_ticktick (fun _ => none)
        (some "2026-01-31T21:00:00+00:09:21+0000") none
      = some "2026-01-31T21:00:00.000+00:09:21" ∧
    _format_date_for_ticktick (fun _ => none)
        (some "2026-01-31T21:00:00.000+00:09:21") none
      = some "2026-01-31T21:00:00.000+000921" ∧
    ("2026-01-31T21:00:00.000+000921" : String) ≠ "2026-01-31T21:00:00.000+00:09:21" :=
  ⟨rfl, rfl, by decide⟩

/-- C10 (amended): strings already carrying a `.000` part whose last six
characters contain a sign (`+` anywhere there, or `-` with the string's last
`-` after index 10) are returned unchanged for every timezone argument — in
particular the function's own canonical outputs are fixed points — but full
idempotence on arbitrary inputs fails (see the counterexample). -/
theorem C10_format_date_fixpoint (tzdb : String → Option TZModel)
    (s : String) (tz : Option String)
    (hne : s ≠ "")
    (hdot : containsSeq ".000".data s.data = true)
    (hlen : 10 < s.data.length)
    (hsig : '+' ∈ s.data.drop (s.data.length - 6) ∨
            ('-' ∈ s.data.drop (s.data.length - 6) ∧ 10 < pyRfind '-' s.data)) :
    _format_date_for_ticktick tzdb (some s) tz = some s := by
  have hlen2 : 10 < s.length := hlen
  rcases hsig with h | ⟨h, h'⟩
  · have hD : '+' ∈ List.drop (s.length - 6) s.data := h
    simp [_format_date_for_ticktick, hne, hlen2, hdot, hD]
  · have hD : '-' ∈ List.drop (s.length - 6) s.data := h
    simp [_format_date_for_ticktick, hne, hlen2, hdot, hD, h']

/-- C10 (witness). -/
theorem C10_format_date_fixpoint_witness :
    ("2026-01-31T21:00:00.000-0500" : String) ≠ "" ∧
    containsSeq ".000".data "2026-01-31T21:00:00.000-0500".data = true ∧
    10 < "2026-01-31T21:00:00.000-0500".data.length ∧
    ('-' ∈ "2026-01-31T21:00:00.000-0500".data.drop
        ("2026-01-31T21:00:00.000-0500".data.length - 6) ∧
     10 < pyRfind '-' "2026-01-31T21:00:00.000-0500".data) ∧
    _format_date_for_ticktick (fun _ => none)
        (some "2026-01-31T21:00:00.000-0500") (some "America/New_York")
      = some "2026-01-31T21:00:00.000-0500" := by
  refine ⟨by decide, by decide, by decide, ⟨by decide, by decide⟩, ?_⟩
  exact C10_format_date_fixpoint (fun _ => none) _ (some "America/New_York")
    (by decide) (by decide) (by decide) (Or.inr ⟨by decide, by decide⟩)
